import Mathlib

set_option maxRecDepth 100000

/-!
Verification of the session state machine and human-handoff orchestrator of
the Contessasoft WhatsApp bot (src/main.py), as a shallow embedding.

Conventions of the embedding:
* Python strings are Lean `String`; `a in b` (substring test) is `strIn a b`;
  `s.strip()` is `pyStrip`; `s.lower()` is `pyLower`; `s.split()` is
  `pyWords`; `s.startswith(p)` is `pyStartsWith s p`.
* The Redis session store (`user_state:*` and `agent_conversation:*` keys) is
  the `Store` structure; documents are typed records in which an `Option`
  field stands for "key present in the JSON document".
* Outbound channel delivery (WhatsApp payload shaping, size truncation,
  multi-part splits, list-row rendering) is out of scope per the spec; a send
  is recorded as a `SentMsg` with its recipient and body text, and structured
  sends are modelled as succeeding.
* Randomness (`random.choice` over the singleton agent pool is deterministic;
  generated conversation ids and reference numbers) is supplied as an
  explicit `rid` oracle argument.
* Conversation-history logging (`ConversationLogger`) touches only the
  administrative `conversation:*` keyspace, which the spec places outside the
  correctness contract; it is not modelled.
-/

/-- `charsPre n h` : the character list `n` is a prefix of `h`. -/
def charsPre : List Char → List Char → Bool
  | [], _ => true
  | _ :: _, [] => false
  | a :: as, b :: bs => a == b && charsPre as bs

/-- `charsSub n h` : the character list `n` occurs contiguously inside `h`. -/
def charsSub : List Char → List Char → Bool
  | n, [] => n.isEmpty
  | n, c :: rest => charsPre n (c :: rest) || charsSub n rest

/-- Python's `a in b` on strings: `a` is a substring of `b`. -/
def strIn (a b : String) : Bool :=
  charsSub a.toList b.toList

/-- Python's `s.lower()`: lowercase every character (the texts involved are
ASCII, where Python and `Char.toLower` agree). -/
def pyLower (s : String) : String :=
  String.mk (s.toList.map Char.toLower)

/-- Drop leading whitespace characters. -/
def wsDropLeft : List Char → List Char
  | [] => []
  | c :: cs => if c.isWhitespace then wsDropLeft cs else c :: cs

/-- Python's `s.strip()`: drop whitespace from both ends. -/
def pyStrip (s : String) : String :=
  String.mk ((wsDropLeft (wsDropLeft s.toList).reverse).reverse)

/-- Python's `s.startswith(pre)`. -/
def pyStartsWith (s pre : String) : Bool :=
  charsPre pre.toList s.toList

/-- Accumulator loop for `pyWords`. -/
def wordsAux : List Char → List Char → List String
  | [], acc => if acc.isEmpty then [] else [String.mk acc.reverse]
  | c :: cs, acc =>
    if c.isWhitespace then
      if acc.isEmpty then wordsAux cs []
      else String.mk acc.reverse :: wordsAux cs []
    else wordsAux cs (c :: acc)

/-- Python's `s.split()` with no separator: split on whitespace runs,
dropping empty pieces. -/
def pyWords (s : String) : List String :=
  wordsAux s.toList []

/-- `MainMenuOptions` enum of src/main.py. -/
inductive MainMenuOption where
  | ABOUT
  | SERVICES
  | QUOTE
  | SUPPORT
  | CONTACT
deriving DecidableEq

/-- The `.value` of each `MainMenuOptions` member. -/
def MainMenuOption.value : MainMenuOption → String
  | .ABOUT => "Learn about Contessasoft"
  | .SERVICES => "Our Services"
  | .QUOTE => "Request a Quote"
  | .SUPPORT => "Talk to Support"
  | .CONTACT => "Contact Us"

/-- `AboutOptions` enum of src/main.py. -/
inductive AboutOption where
  | PORTFOLIO
  | PROFILE
  | BACK
deriving DecidableEq

def AboutOption.value : AboutOption → String
  | PORTFOLIO => "View our portfolio"
  | .PROFILE => "Download company profile"
  | .BACK => "Back to main menu"

/-- `ServiceOptions` enum of src/main.py. -/
inductive ServiceOption where
  | DOMAIN
  | WEBSITE
  | MOBILE
  | CHATBOT
  | PAYMENTS
  | AI
  | DASHBOARDS
  | OTHER
deriving DecidableEq

def ServiceOption.value : ServiceOption → String
  | .DOMAIN => "Domain Registration"
  | .WEBSITE => "Website Development"
  | .MOBILE => "Mobile App Development"
  | .CHATBOT => "WhatsApp Chatbots"
  | .PAYMENTS => "Payment Integrations"
  | .AI => "AI and Automation"
  | .DASHBOARDS => "Custom Dashboards"
  | .OTHER => "Other"

/-- `ChatbotOptions` enum of src/main.py. -/
inductive ChatbotOption where
  | QUOTE
  | SAMPLE
  | BACK
deriving DecidableEq

def ChatbotOption.value : ChatbotOption → String
  | .QUOTE => "Request a quote"
  | .SAMPLE => "View sample chatbot"
  | .BACK => "Back to services"

/-- `QuoteOptions` enum of src/main.py. -/
inductive QuoteOption where
  | CALLBACK
  | NO_CALLBACK
  | BACK
deriving DecidableEq

def QuoteOption.value : QuoteOption → String
  | .CALLBACK => "Yes, call me"
  | .NO_CALLBACK => "No, just send the quote"
  | .BACK => "Back to main menu"

/-- `SupportOptions` enum of src/main.py. -/
inductive SupportOption where
  | TECH
  | BILLING
  | GENERAL
  | BACK
deriving DecidableEq

def SupportOption.value : SupportOption → String
  | .TECH => "Technical support"
  | .BILLING => "Payment or billing help"
  | .GENERAL => "General enquiry"
  | .BACK => "Back to main menu"

/-- `ContactOptions` enum of src/main.py. -/
inductive ContactOption where
  | CALLBACK
  | AGENT
  | BACK
deriving DecidableEq

def ContactOption.value : ContactOption → String
  | .CALLBACK => "Request a call back"
  | .AGENT => "Speak to an agent"
  | .BACK => "Back to main menu"

/-- Members of each enum, in declaration order (Python iterates an Enum in
declaration order). -/
def mainMenuList : List MainMenuOption :=
  [.ABOUT, .SERVICES, .QUOTE, .SUPPORT, .CONTACT]

def aboutList : List AboutOption :=
  [AboutOption.PORTFOLIO, .PROFILE, .BACK]

def serviceList : List ServiceOption :=
  [.DOMAIN, .WEBSITE, .MOBILE, .CHATBOT, .PAYMENTS, .AI, .DASHBOARDS, .OTHER]

def chatbotList : List ChatbotOption :=
  [.QUOTE, .SAMPLE, .BACK]

def quoteList : List QuoteOption :=
  [.CALLBACK, .NO_CALLBACK, .BACK]

def supportList : List SupportOption :=
  [.TECH, .BILLING, .GENERAL, .BACK]

def contactList : List ContactOption :=
  [.CALLBACK, .AGENT, .BACK]

/-- The matching loop shared by `handle_main_menu`, `handle_about_menu`,
`handle_chatbot_menu`, `handle_quote_followup`, `handle_support_menu` and
`handle_contact_menu` in src/main.py:

    for option in Options:
        if prompt.lower() in option.value.lower():
            selected_option = option
            break

i.e. the first option, in declaration order, whose lowercased label contains
the lowercased reply as a substring. -/
def containMatch {α : Type} (opts : List α) (value : α → String) (prompt : String) :
    Option α :=
  opts.find? (fun o => strIn (pyLower prompt) (pyLower (value o)))

/-- A match score, kept as an exact fraction `num/den` (positive `den`).
Python computes the same values with float division; at the magnitudes
involved (numerator and denominator bounded by the label lengths) IEEE
doubles order fractions exactly as the rationals do. -/
structure Score where
  num : Nat
  den : Nat
deriving DecidableEq

/-- `a < b` on scores, by cross-multiplication (exact rational order for
positive denominators). -/
def Score.ltb (a b : Score) : Bool :=
  a.num * b.den < b.num * a.den

/-- The scoring loop of `handle_services_menu` (src/main.py lines 947-967):
exact normalized equality breaks immediately; a substring reply scores
`len(reply)/len(label)`; a reply one of whose whitespace-separated words
occurs in the label scores 1/2; a strictly higher score replaces the current
best. -/
def service_match_loop (clean : String) :
    List ServiceOption → Option ServiceOption → Score → Option ServiceOption
  | [], sel, _ => sel
  | o :: rest, sel, best =>
    let ot := pyLower o.value
    if clean == ot then some o
    else
      let score : Score :=
        if strIn clean ot then { num := clean.length, den := ot.length }
        else if (pyWords clean).any (fun w => strIn w ot) then { num := 1, den := 2 }
        else { num := 0, den := 1 }
      if best.ltb score then service_match_loop clean rest (some o) score
      else service_match_loop clean rest sel best

/-- The full matcher of `handle_services_menu`: input is stripped and
lowercased, then scored against `ServiceOptions` in declaration order. -/
def servicesMatch (prompt : String) : Option ServiceOption :=
  service_match_loop (pyLower (pyStrip prompt)) serviceList none { num := 0, den := 1 }

/-- The `User` object of src/main.py as serialized by `User.to_dict` and
stored under the session's `user` key.  `service_type` / `support_type`
hold the enum member whose `.value` the dict stores (or `none` for JSON
null), which `User.from_dict` restores. -/
structure UserRec where
  name : String
  phone : String
  email : Option String := none
  service_type : Option ServiceOption := none
  project_description : Option String := none
  callback_requested : Bool := false
  support_type : Option SupportOption := none
deriving DecidableEq

/-- A `user_state:{phone}` document.  Each field is a top-level JSON key the
program reads or writes; `none` means the key is absent from the document.
(`sender` is the canonical user identifier; `user` the serialized `User`
object; `field` the next quote-form field to collect.) -/
structure UserState where
  step : Option String := none
  sender : Option String := none
  phone_number : Option String := none
  user : Option UserRec := none
  field : Option String := none
  name : Option String := none
  selected_service : Option String := none
  service_description : Option String := none
  awaiting_button_response : Option Bool := none
  assigned_agent : Option String := none
  agent_handover : Option Bool := none
  conversation_id : Option String := none
  awaiting_agent_response : Option Bool := none
  active_chat : Option Bool := none
deriving DecidableEq

/-- An `agent_conversation:{conversation_id}` document (`human_agent`,
src/main.py lines 1541-1545). -/
structure ConvData where
  customer : String
  agent : String
  active : Bool
deriving DecidableEq

/-- The Redis store: `user_state:*` documents keyed by phone number and
`agent_conversation:*` documents keyed by conversation id. -/
structure Store where
  users : String → Option UserState
  convs : String → Option ConvData

/-- A store with no documents. -/
def emptyStore : Store :=
  { users := fun _ => none, convs := fun _ => none }

/-- Overwrite one user document (`redis_client.setex("user_state:...")`). -/
def Store.setUser (st : Store) (k : String) (v : UserState) : Store :=
  { st with users := fun k2 => if k2 = k then some v else st.users k2 }

/-- Overwrite one conversation document
(`redis_client.setex("agent_conversation:...")`). -/
def Store.setConv (st : Store) (k : String) (v : ConvData) : Store :=
  { st with convs := fun k2 => if k2 = k then some v else st.convs k2 }

/-- Delete one conversation document
(`redis_client.delete("agent_conversation:...")`). -/
def Store.delConv (st : Store) (k : String) : Store :=
  { st with convs := fun k2 => if k2 = k then none else st.convs k2 }

/-- An outbound send: recipient, body text, and which send helper produced it
("text", "button" or "list").  Channel payload shaping (button/list rows,
length truncation, multi-part splitting) is out of scope per the spec. -/
structure SentMsg where
  recipient : String
  text : String
  kind : String
deriving DecidableEq

/-- What one handler invocation produces: the store after its own
`update_user_state` / conversation writes, the dict it returns to
`message_handler` (`none` embeds a Python `return None` fall-through), and
the sends it issued, in order. -/
structure HandlerOut where
  store : Store
  ret : Option UserState
  msgs : List SentMsg

/-- `normalize_phone_number` of src/main.py. -/
def normalize_phone_number (phone : String) : String :=
  let cleaned := String.mk (phone.toList.filter (fun c => c.isDigit || c == '+'))
  if pyStartsWith cleaned "+263" then cleaned
  else if pyStartsWith cleaned "263" then "+" ++ cleaned
  else if pyStartsWith cleaned "0" then "+263" ++ String.mk (cleaned.toList.drop 1)
  else cleaned

/-- `AGENT_NUMBERS` of src/main.py. -/
def AGENT_NUMBERS : List String := ["+263785019494"]

/-- `owner_phone` comes from the environment (`OWNER_PHONE`); it is modelled
as a fixed opaque identifier, used only as an admin-notification recipient. -/
def owner_phone : String := "owner_phone"

/-- `get_user_state` of src/main.py: the stored document, or the default
`{'step': 'welcome', 'sender': phone_number}` when the key is absent. -/
def get_user_state (st : Store) (phone_number : String) : UserState :=
  match st.users phone_number with
  | some s => s
  | none => { step := some "welcome", sender := some phone_number }

/-- Python `current.update(updates)`: every key present in `updates`
overwrites the current document's value; absent keys keep it. -/
def mergeState (cur upd : UserState) : UserState :=
  { step := upd.step <|> cur.step
    sender := upd.sender <|> cur.sender
    phone_number := upd.phone_number <|> cur.phone_number
    user := upd.user <|> cur.user
    field := upd.field <|> cur.field
    name := upd.name <|> cur.name
    selected_service := upd.selected_service <|> cur.selected_service
    service_description := upd.service_description <|> cur.service_description
    awaiting_button_response := upd.awaiting_button_response <|> cur.awaiting_button_response
    assigned_agent := upd.assigned_agent <|> cur.assigned_agent
    agent_handover := upd.agent_handover <|> cur.agent_handover
    conversation_id := upd.conversation_id <|> cur.conversation_id
    awaiting_agent_response := upd.awaiting_agent_response <|> cur.awaiting_agent_response
    active_chat := upd.active_chat <|> cur.active_chat }

/-- `update_user_state` of src/main.py: read-merge-write with
`current['phone_number'] = phone_number` and `sender` defaulted to the key
when still absent after the merge. -/
def update_user_state (st : Store) (phone_number : String) (updates : UserState) : Store :=
  let current := get_user_state st phone_number
  let merged := mergeState current updates
  let merged := { merged with
    phone_number := some phone_number
    sender := some (merged.sender.getD phone_number) }
  st.setUser phone_number merged

/-- `send_message` of src/main.py: a plain text send (multi-part splitting of
over-length texts is channel shaping, out of scope). -/
def sendText (recipient text : String) : SentMsg :=
  { recipient := recipient, text := text, kind := "text" }

/-- The recipient normalization inside `send_button_message` (src/main.py
lines 358-380): a local `0...` number gets the `+263` prefix, a bare
international number gets `+`, and the first candidate format is used. -/
def button_recipient (recipient : String) : String :=
  if pyStartsWith recipient "0" then "+263" ++ String.mk (recipient.toList.drop 1)
  else if ¬ pyStartsWith recipient "+" then "+" ++ recipient
  else recipient

/-- `send_button_message` of src/main.py, modelled as a successful structured
send (button rows are payload shaping, out of scope). -/
def sendButton (recipient text : String) : SentMsg :=
  { recipient := button_recipient recipient, text := text, kind := "button" }

/-- `send_list_message` of src/main.py, modelled as a successful structured
send (list rows are payload shaping, out of scope). -/
def sendList (recipient text : String) : SentMsg :=
  { recipient := recipient, text := text, kind := "list" }

/-- The raw interactive post inside `handle_services_menu` (lines 1072-1091),
which sends to `user_data['sender']` without `send_button_message`'s
recipient normalization. -/
def sendRawButton (recipient text : String) : SentMsg :=
  { recipient := recipient, text := text, kind := "button" }

/-- The generic per-handler `except` apology of src/main.py. -/
def err_text : String := "An error occurred. Please try again."

def welcome_msg : String :=
  "🌟 *Welcome to Contessasoft (Private) Limited!* 🌟\n\nWe build intelligent software solutions including websites, mobile apps, chatbots, and business systems.\n\nPlease choose an option to continue:"

def about_msg : String :=
  "Contessasoft is a Zimbabwe-based software company established in 2022.\nWe develop custom systems for businesses in finance, education, logistics, retail, and other sectors.\n\nWould you like to:"

def services_msg : String :=
  "🔧 *Our Services* 🔧\n\nWe offer complete digital solutions:\nSelect a service to learn more:"

def support_msg : String := "Please select the type of support you need:"

def contact_msg : String :=
  "You can reach Contessasoft through the following:\n\nAddress: 115 ED Mnangagwa Road, Highlands, Harare, Zimbabwe\nWhatsApp: +263 242 498954\nEmail: sales@contessasoft.co.zw\n\nWould you like to:"

def portfolio_msg : String :=
  "Our portfolio includes:\n- Banking systems\n- School management systems\n- E-commerce platforms\n- Logistics tracking systems\n- Custom business automation"

def profile_msg : String :=
  "You can download our company profile from: https://contessasoft.co.zw/profile.pdf\n\nWould you like to request more information?"

def quote_name_msg : String :=
  "To help us prepare a quote, please provide your full name."

/-- The Python enum name (`option.name`) of a `ServiceOptions` member. -/
def ServiceOption.pyName : ServiceOption → String
  | .DOMAIN => "DOMAIN"
  | .WEBSITE => "WEBSITE"
  | .MOBILE => "MOBILE"
  | .CHATBOT => "CHATBOT"
  | .PAYMENTS => "PAYMENTS"
  | .AI => "AI"
  | .DASHBOARDS => "DASHBOARDS"
  | .OTHER => "OTHER"

/-- `ServiceOptions(value)`: the member with exactly this `.value`, if any
(`ValueError` otherwise, which `handle_get_quote_info` turns into `OTHER`). -/
def serviceOfValue (s : String) : Option ServiceOption :=
  serviceList.find? (fun o => o.value = s)

/-- The `service_info` texts of `handle_services_menu` (lines 982-1056). -/
def service_info : ServiceOption → String
  | .DOMAIN =>
    "🌐 *Domain & Hosting Services*\n\n• Domain registration (.co.zw, .com, etc.)\n• Reliable web hosting with 99.9% uptime\n• Professional email hosting\n• SSL certificates for security\n• DNS management\n• Website migration assistance"
  | .WEBSITE =>
    "🖥️ *Website Development*\n\n• Custom business websites\n• E-commerce stores with payment integration\n• Content Management Systems (CMS)\n• Web application development\n• SEO optimization\n• Ongoing maintenance packages"
  | .MOBILE =>
    "📱 *Mobile App Development*\n\n• Native iOS and Android apps\n• Cross-platform hybrid apps\n• App UI/UX design\n• API integration\n• App Store and Play Store deployment\n• Post-launch support"
  | .CHATBOT =>
    "🤖 *WhatsApp Chatbots*\n\n• Automated customer service\n• Bill payment solutions (ZESA, DStv, etc.)\n• Order processing systems\n• KYC and registration flows\n• FAQ and support automation\n• Integration with business systems"
  | .PAYMENTS =>
    "💳 *Payment Integrations*\n\n• Ecocash/OneMoney/ZimSwitch\n• VISA/Mastercard gateways\n• PayPal and international payments\n• Custom payment solutions\n• PCI-DSS compliant setups\n• Reconciliation reporting"
  | .AI =>
    "🧠 *AI & Automation*\n\n• Intelligent chatbots\n• Document processing and OCR\n• Predictive analytics\n• Process automation\n• Machine learning models\n• Data extraction and analysis"
  | .DASHBOARDS =>
    "📊 *Business Dashboards*\n\n• Real-time business analytics\n• Custom reporting tools\n• Data visualization\n• KPI tracking\n• Executive dashboards\n• Automated report generation"
  | .OTHER =>
    "✨ *Custom Solutions*\n\nWe develop tailored software for:\n• Inventory management\n• School administration\n• Healthcare systems\n• Logistics tracking\n• Financial services\n• And other business needs"

/-- `handle_welcome` (src/main.py lines 735-751): send the welcome list and
move the session to `main_menu`. -/
def handle_welcome (_prompt sender : String) (st : Store) : HandlerOut :=
  let m := sendList sender welcome_msg
  let st := update_user_state st sender { step := some "main_menu" }
  { store := st, ret := some { step := some "main_menu" }, msgs := [m] }

def restart_q1 : String := "Would you like to go back to main menu?"

def restart_q2 : String := "Please confirm: would you like to restart with the bot?"

/-- `handle_restart_confirmation` (src/main.py lines 753-796). -/
def handle_restart_confirmation (prompt sender : String) (st : Store) : HandlerOut :=
  let text := pyLower (pyStrip prompt)
  if text = "" ∨ text ∈ (["restart", "start", "menu"] : List String) then
    let m := sendButton sender restart_q1
    let st := update_user_state st sender { step := some "restart_confirmation" }
    { store := st, ret := some { step := some "restart_confirmation" }, msgs := [m] }
  else if text ∈ (["yes", "y", "restart_yes", "ok", "sure", "yeah", "yep"] : List String) then
    handle_welcome "" sender st
  else if text ∈ (["no", "n", "restart_no", "nope", "nah"] : List String) then
    let m := sendText sender "Have a good day!"
    let st := update_user_state st sender { step := some "welcome" }
    { store := st, ret := some { step := some "welcome" }, msgs := [m] }
  else
    { store := st, ret := some { step := some "restart_confirmation" },
      msgs := [sendButton sender restart_q2] }

/-- `handle_main_menu` (src/main.py lines 798-897). -/
def handle_main_menu (prompt sender : String) (st : Store) : HandlerOut :=
  match containMatch mainMenuList MainMenuOption.value prompt with
  | none =>
    { store := st, ret := some { step := some "main_menu" },
      msgs := [sendText sender "Fae selection. Please choose an option from the list."] }
  | some .ABOUT =>
    let m := sendList sender about_msg
    let st := update_user_state st sender { step := some "about_menu" }
    { store := st, ret := some { step := some "about_menu" }, msgs := [m] }
  | some .SERVICES =>
    let m := sendList sender services_msg
    let st := update_user_state st sender { step := some "services_menu" }
    { store := st, ret := some { step := some "services_menu" }, msgs := [m] }
  | some .QUOTE =>
    let m := sendText sender quote_name_msg
    let st := update_user_state st sender
      { step := some "get_quote_info",
        user := some { name := "", phone := sender },
        field := some "name" }
    { store := st, ret := some { step := some "get_quote_info" }, msgs := [m] }
  | some .SUPPORT =>
    let m := sendList sender support_msg
    let st := update_user_state st sender { step := some "support_menu" }
    { store := st, ret := some { step := some "support_menu" }, msgs := [m] }
  | some .CONTACT =>
    let m := sendList sender contact_msg
    let st := update_user_state st sender { step := some "contact_menu" }
    { store := st, ret := some { step := some "contact_menu" }, msgs := [m] }

/-- `handle_about_menu` (src/main.py lines 899-939).  The `PROFILE` branch
stores step `request_more_info`, a name `action_mapping` does not contain. -/
def handle_about_menu (prompt sender : String) (st : Store) : HandlerOut :=
  match containMatch aboutList AboutOption.value prompt with
  | none =>
    { store := st, ret := some { step := some "about_menu" },
      msgs := [sendText sender "Invalid selection. Please choose an option from the list."] }
  | some AboutOption.PORTFOLIO =>
    let m := sendText sender portfolio_msg
    let out := handle_welcome "" sender st
    { out with msgs := m :: out.msgs }
  | some .PROFILE =>
    let m := sendText sender profile_msg
    let st := update_user_state st sender { step := some "request_more_info" }
    { store := st, ret := some { step := some "request_more_info" }, msgs := [m] }
  | some .BACK => handle_welcome "" sender st

/-- `handle_services_menu` (src/main.py lines 941-1118): run the scored
matcher; on a match, store the selection (twice: before and after the raw
interactive send, the second write adding `awaiting_button_response`) and
present the quote/back buttons; on no match, re-send the service list and
stay on `services_menu`. -/
def handle_services_menu (prompt sender : String) (st : Store) : HandlerOut :=
  match servicesMatch prompt with
  | none =>
    { store := st, ret := some { step := some "services_menu" },
      msgs := [sendList sender "🚫 Please select a valid service option:"] }
  | some o =>
    let st := update_user_state st sender
      { step := some "service_detail",
        selected_service := some o.pyName,
        service_description := some o.value }
    let m := sendRawButton sender (service_info o)
    let st := update_user_state st sender
      { step := some "service_detail",
        selected_service := some o.pyName,
        service_description := some o.value,
        awaiting_button_response := some true }
    { store := st,
      ret := some { step := some "service_detail", selected_service := some o.pyName },
      msgs := [m] }

/-- `handle_service_detail` (src/main.py lines 1120-1181). -/
def handle_service_detail (prompt sender : String) (ud : UserState) (st : Store) :
    HandlerOut :=
  let clean := pyLower (pyStrip prompt)
  if strIn "quote" clean ∨ strIn "request quote" clean ∨ strIn "💬" prompt then
    let u : UserRec := { name := "", phone := sender }
    let st := update_user_state st sender
      { step := some "get_quote_info", user := some u, field := some "name",
        selected_service := ud.selected_service,
        service_description := ud.service_description }
    let m := sendText sender "To help us prepare a quote, please provide your full name:"
    { store := st,
      ret := some { step := some "get_quote_info", user := some u, field := some "name" },
      msgs := [m] }
  else if strIn "back" clean ∨ strIn "services" clean ∨ strIn "🔙" prompt then
    let m := sendList sender services_msg
    let st := update_user_state st sender { step := some "services_menu" }
    { store := st, ret := some { step := some "services_menu" }, msgs := [m] }
  else
    let info := "ℹ️ *" ++ ud.service_description.getD "Selected Service" ++
      "*\n\nPlease choose an option:"
    { store := st, ret := some { step := some "service_detail" },
      msgs := [sendButton sender info] }

/-- `handle_chatbot_menu` (src/main.py lines 1183-1220).  The `QUOTE` branch
stores step `get_chatbot_quote`, a name `action_mapping` does not contain
(no reachable transition stores `chatbot_menu`, so this handler is dead
code in the deployed dialogue graph). -/
def handle_chatbot_menu (prompt sender : String) (st : Store) : HandlerOut :=
  match containMatch chatbotList ChatbotOption.value prompt with
  | none =>
    { store := st, ret := some { step := some "chatbot_menu" },
      msgs := [sendText sender "Invalid selection. Please choose an option from the list."] }
  | some .QUOTE =>
    let m := sendText sender quote_name_msg
    let st := update_user_state st sender { step := some "get_chatbot_quote" }
    { store := st, ret := some { step := some "get_chatbot_quote" }, msgs := [m] }
  | some .SAMPLE =>
    let m := sendText sender "You can view a sample chatbot at: https://wa.me/263242498954?text=sample\n\nWould you like to request a quote for a similar solution?"
    let st := update_user_state st sender { step := some "get_quote_info" }
    { store := st, ret := some { step := some "get_quote_info" }, msgs := [m] }
  | some .BACK => handle_main_menu MainMenuOption.SERVICES.value sender st

/-- `handle_get_quote_info` (src/main.py lines 1222-1307): the quote-form
collection step.  A missing `user` document raises `KeyError`, caught by the
handler's own `except` (apology, step `welcome`); an unrecognized `field`
value falls off the end of the `try` and returns Python `None`. -/
def handle_get_quote_info (prompt sender : String) (ud : UserState) (st : Store) :
    HandlerOut :=
  match ud.user with
  | none =>
    { store := st, ret := some { step := some "welcome" }, msgs := [sendText sender err_text] }
  | some u =>
    if ud.field = some "name" then
      let u2 := { u with name := prompt }
      let upd : UserState :=
        { step := some "get_quote_info", user := some u2, field := some "email" }
      let st := update_user_state st sender upd
      { store := st, ret := some upd,
        msgs := [sendText sender "Thank you. Please provide your email or WhatsApp number:"] }
    else if ud.field = some "email" then
      let u2 := { u with email := some prompt }
      let upd : UserState :=
        { step := some "get_quote_info", user := some u2, field := some "service_type" }
      let st := update_user_state st sender upd
      { store := st, ret := some upd,
        msgs := [sendText sender "Please specify the type of service you need:"] }
    else if ud.field = some "service_type" then
      let u2 := { u with service_type := some ((serviceOfValue prompt).getD .OTHER) }
      let upd : UserState :=
        { step := some "get_quote_info", user := some u2, field := some "description" }
      let st := update_user_state st sender upd
      { store := st, ret := some upd,
        msgs := [sendText sender "Please provide a short description of your project:"] }
    else if ud.field = some "description" then
      let u2 := { u with project_description := some prompt }
      let m1 := sendList sender "Would you like a call back after submitting?"
      let admin_msg :=
        "📋 *New Quote Request*\n\n👤 Name: " ++ u2.name ++
        "\n📞 Phone: " ++ u2.phone ++
        "\n📧 Email: " ++ u2.email.getD "None" ++
        "\n🛠️ Service: " ++ (u2.service_type.map ServiceOption.value).getD "Other" ++
        "\n📝 Description: " ++ prompt
      let m2 := sendText owner_phone admin_msg
      let upd : UserState := { step := some "quote_followup", user := some u2 }
      let st := update_user_state st sender upd
      { store := st, ret := some upd, msgs := [m1, m2] }
    else
      { store := st, ret := none, msgs := [] }

/-- `handle_quote_followup` (src/main.py lines 1309-1354).  `rid` supplies
the random reference number.  Note the `CALLBACK` branch sets
`callback_requested` only on the in-memory `User`; neither followup branch
writes the updated user back, and both fall into `handle_welcome`. -/
def handle_quote_followup (prompt sender : String) (ud : UserState) (st : Store)
    (rid : String) : HandlerOut :=
  match containMatch quoteList QuoteOption.value prompt with
  | none =>
    { store := st, ret := some { step := some "quote_followup", user := ud.user },
      msgs := [sendText sender "Invalid selection. Please choose an option from the list."] }
  | some opt =>
    match ud.user with
    | none =>
      { store := st, ret := some { step := some "welcome" }, msgs := [sendText sender err_text] }
    | some u =>
      match opt with
      | .CALLBACK =>
        match u.project_description with
        | none =>
          -- Python: user.project_description[:10] on None raises TypeError,
          -- caught by the handler's except
          { store := st, ret := some { step := some "welcome" },
            msgs := [sendText sender err_text] }
        | some d =>
          let m1 := sendText sender
            ("Thank you! Your request has been submitted. Our team will call you within 24 hours.\n\nReference: #" ++ rid)
          let m2 := sendText owner_phone
            ("📞 Callback requested by " ++ u.name ++ " - " ++ u.phone ++
             " for quote #" ++ String.mk (d.toList.take 10) ++ "...")
          let out := handle_welcome "" sender st
          { out with msgs := m1 :: m2 :: out.msgs }
      | .NO_CALLBACK =>
        let m1 := sendText sender
          "Thank you! Your request has been submitted. You'll receive the quote via WhatsApp/email within 24 hours."
        let out := handle_welcome "" sender st
        { out with msgs := m1 :: out.msgs }
      | .BACK => handle_main_menu MainMenuOption.QUOTE.value sender st

/-- The per-category prompt texts of `handle_support_menu` (the `BACK` case
never reaches this point). -/
def support_prompt : SupportOption → String
  | .TECH =>
    "Please describe your technical issue:\n1. System/feature having issues\n2. Error messages received\n3. Steps to reproduce the issue"
  | .BILLING =>
    "Please provide:\n1. Invoice/transaction number\n2. Payment method used\n3. Description of the issue"
  | .GENERAL => "Please describe your enquiry:"
  | .BACK => ""

/-- `handle_support_menu` (src/main.py lines 1356-1413). -/
def handle_support_menu (prompt sender : String) (ud : UserState) (st : Store) :
    HandlerOut :=
  match containMatch supportList SupportOption.value prompt with
  | none =>
    { store := st, ret := some { step := some "support_menu" },
      msgs := [sendText sender "Invalid selection. Please choose an option from the list."] }
  | some o =>
    if o = .BACK then handle_welcome "" sender st
    else
      let u : UserRec := { name := ud.name.getD "User", phone := sender, support_type := some o }
      let m := sendText sender (support_prompt o)
      let upd : UserState := { step := some "get_support_details", user := some u }
      let st := update_user_state st sender upd
      { store := st, ret := some upd, msgs := [m] }

/-- `human_agent` (src/main.py lines 1525-1629): create the `Requested`
conversation record (`active=False`), point both parties' sessions at it,
notify the customer and present Accept/Reject to the agent.  `AGENT_NUMBERS`
is a non-empty literal, so the no-agent fallback is dead and
`random.choice` over the singleton pool deterministically yields its only
member; `rid` supplies the random conversation id. -/
def human_agent (_prompt sender : String) (ud : UserState) (st : Store) (rid : String) :
    HandlerOut :=
  let selected_agent := "+263785019494"
  let conversation_id := rid
  let conv : ConvData := { customer := sender, agent := selected_agent, active := false }
  let st := st.setConv conversation_id conv
  let st := update_user_state st sender
    { step := some "human_agent", assigned_agent := some selected_agent,
      agent_handover := some true, conversation_id := some conversation_id }
  let agent_state : UserState :=
    { step := some "agent_response", conversation_id := some conversation_id,
      awaiting_agent_response := some true, sender := some selected_agent }
  let st := update_user_state st selected_agent agent_state
  let normalized_agent := normalize_phone_number selected_agent
  let st :=
    if normalized_agent ≠ selected_agent then update_user_state st normalized_agent agent_state
    else st
  let m1 := sendText sender
    ("🚀 Connecting you to an agent...\n\nYour conversation ID: " ++ conversation_id ++
     "\nPlease wait for the agent to accept your request.")
  let m2 := sendButton selected_agent
    ("New Chat Request\n\nYou can send 'exit' to end the chat anytime.\n\nFrom: " ++
     ud.name.getD "Customer" ++ " - " ++ sender ++ "\nConversation ID: " ++ conversation_id)
  { store := st,
    ret := some { step := some "agent_response", assigned_agent := some selected_agent,
                  conversation_id := some conversation_id,
                  awaiting_agent_response := some true },
    msgs := [m1, m2] }

/-- `handle_get_support_details` (src/main.py lines 1415-1441): forward the
details to the owner, acknowledge with a reference number, then enter the
handoff via `human_agent`.  A missing `user` document or a `support_type` of
null raises, caught by the handler's `except`. -/
def handle_get_support_details (prompt sender : String) (ud : UserState) (st : Store)
    (rid : String) : HandlerOut :=
  match ud.user with
  | none =>
    { store := st, ret := some { step := some "welcome" }, msgs := [sendText sender err_text] }
  | some u =>
    match u.support_type with
    | none =>
      { store := st, ret := some { step := some "welcome" }, msgs := [sendText sender err_text] }
    | some sup =>
      let m1 := sendText owner_phone
        ("🆘 *New Support Request* - " ++ sup.value ++ "\n\n👤 From: " ++ u.name ++
         " - " ++ u.phone ++ "\n📝 Details: " ++ prompt)
      let m2 := sendText sender
        ("Thank you! Your support request has been logged. Our team will respond shortly.\nReference: #" ++ rid)
      let out := human_agent "" sender ud st rid
      { out with msgs := m1 :: m2 :: out.msgs }

/-- `handle_contact_menu` (src/main.py lines 1443-1484). -/
def handle_contact_menu (prompt sender : String) (ud : UserState) (st : Store)
    (rid : String) : HandlerOut :=
  match containMatch contactList ContactOption.value prompt with
  | none =>
    { store := st, ret := some { step := some "contact_menu" },
      msgs := [sendText sender "Invalid selection. Please choose an option from the list."] }
  | some .CALLBACK =>
    let m := sendText sender "Please provide your full name.\n"
    let st := update_user_state st sender { step := some "get_callback_details" }
    { store := st, ret := some { step := some "get_callback_details" }, msgs := [m] }
  | some .AGENT =>
    let m1 := sendText sender
      "Connecting you to an agent...\nIf no one is available immediately, your message will be forwarded and you'll receive a response soon."
    let m2 := sendText owner_phone ("👤 " ++ sender ++ " requested to speak with an agent.")
    let out := human_agent "" sender ud st rid
    { out with msgs := m1 :: m2 :: out.msgs }
  | some .BACK => handle_welcome "" sender st

/-- `handle_get_callback_details` (src/main.py lines 1486-1523).  With a
`name` already stored but `field` not `'time'`, the function falls off the
end of the `try` and returns Python `None`. -/
def handle_get_callback_details (prompt sender : String) (ud : UserState) (st : Store)
    (rid : String) : HandlerOut :=
  if ud.name = none then
    let upd : UserState :=
      { step := some "get_callback_details", name := some prompt, field := some "time" }
    let st := update_user_state st sender upd
    { store := st, ret := some upd,
      msgs := [sendText sender "Thank you. Please provide the best time to call:"] }
  else if ud.field = some "time" then
    let m1 := sendText owner_phone
      ("📞 *Callback Request*\n\n👤 Name: " ++ ud.name.getD "" ++ "\n📞 Phone: " ++ sender ++
       "\n⏰ Preferred Time: " ++ prompt)
    let m2 := sendText sender
      ("Thank you! We'll call you at the requested time.\nReference: #" ++ rid)
    let out := handle_welcome "" sender st
    { out with msgs := m1 :: m2 :: out.msgs }
  else
    { store := st, ret := none, msgs := [] }

/-- The body of `agent_response` for a conversation record found under the
session's `conversation_id` (src/main.py lines 1640-1777): accept/reject
negotiation while `active` is false, then exit/relay once active. -/
def agent_response_conv (prompt sender : String) (st : Store) (cid : String)
    (conv : ConvData) : HandlerOut :=
  if ¬ conv.active then
    if sender = conv.agent then
      if prompt = "accept_chat" ∨ strIn "accept" (pyLower prompt) then
        let m1 := sendText conv.customer
          "Agent has joined the conversation. You can now chat directly.\n"
        let m2 := sendText sender
          "✅ You are now connected to the customer.\nType 'exit' to end the conversation and return the customer to the bot."
        let st := st.setConv cid { conv with active := true }
        let customer_state : UserState :=
          { step := some "agent_response", conversation_id := some cid,
            active_chat := some true, sender := some conv.customer }
        let st := update_user_state st conv.customer customer_state
        let agent_state : UserState :=
          { step := some "agent_response", conversation_id := some cid,
            active_chat := some true, sender := some sender }
        let st := update_user_state st sender agent_state
        { store := st,
          ret := some { step := some "agent_response", conversation_id := some cid,
                        active_chat := some true },
          msgs := [m1, m2] }
      else if prompt = "reject_chat" ∨ strIn "reject" (pyLower prompt) then
        let m1 := sendText conv.customer
          "Sorry, the agent is unable to take your chat at this time. Please try again later or leave a message."
        let st := st.delConv cid
        let out := handle_welcome "" conv.customer st
        { out with msgs := m1 :: out.msgs }
      else
        { store := st,
          ret := some { step := some "agent_response", conversation_id := some cid },
          msgs := [sendText sender "Invalid selection. Please choose 'Accept Chat' or 'Reject Chat'."] }
    else
      { store := st,
        ret := some { step := some "agent_response", conversation_id := some cid },
        msgs := [sendText conv.customer "Please wait for the agent to accept your request."] }
  else if pyLower prompt = "exit" then
    let (st, msgs) :=
      if sender = conv.agent then
        (st,
         [sendText conv.agent "You've ended the conversation. The customer will now return to the bot.",
          sendText conv.customer "The agent has ended the conversation. You're now back with the bot."])
      else
        let m1 := sendText conv.customer
          "You've ended the conversation with the agent. You're now back with the bot."
        let m2 := sendText conv.agent "The customer has ended the conversation."
        let st := update_user_state st conv.agent
          { step := some "agent_response", sender := some conv.agent }
        (st, [m1, m2])
    let st := update_user_state st conv.customer
      { step := some "restart_confirmation", sender := some conv.customer }
    let st := st.delConv cid
    let out := handle_restart_confirmation "" conv.customer st
    { out with msgs := msgs ++ out.msgs }
  else
    let m :=
      if sender = conv.agent then sendText conv.customer ("👨‍💼 Agent: " ++ prompt)
      else sendText conv.agent ("👤 Customer: " ++ prompt)
    { store := st,
      ret := some { step := some "agent_response", conversation_id := some cid,
                    active_chat := some true },
      msgs := [m] }

/-- The remainder of `agent_response` when no conversation record was found
under the session's `conversation_id` (src/main.py lines 1779-1868): the
`awaiting_agent_response` accept/reject path, then the fall-through to
`handle_welcome`.  (A `conversation_id` of Python `None` makes the code look
up the literal key `agent_conversation:None`, which never exists: generated
ids are 8 uppercase/digit characters.) -/
def agent_response_tail (prompt sender : String) (ud : UserState) (st : Store) :
    HandlerOut :=
  if ud.awaiting_agent_response.getD false ∧ ¬ ud.active_chat.getD false then
    if prompt = "accept_chat" ∨ strIn "accept" (pyLower prompt) then
      match ud.conversation_id.bind st.convs, ud.conversation_id with
      | some conv, some cid =>
        let m1 := sendText conv.customer
          "Agent has joined the conversation. You can now chat directly.\nType 'exit' at any time to end the conversation."
        let m2 := sendText sender
          "✅ You are now connected to the customer.\nType 'exit' to end the conversation and return to the bot."
        let st := st.setConv cid { conv with active := true }
        let customer_state : UserState :=
          { step := some "agent_response", conversation_id := some cid,
            active_chat := some true, sender := some conv.customer }
        let st := update_user_state st conv.customer customer_state
        let agent_state : UserState :=
          { step := some "agent_response", conversation_id := some cid,
            active_chat := some true, sender := some sender }
        let st := update_user_state st sender agent_state
        { store := st,
          ret := some { step := some "agent_response", conversation_id := some cid,
                        active_chat := some true },
          msgs := [m1, m2] }
      | _, _ =>
        { store := st, ret := some { step := some "agent_response" },
          msgs := [sendText sender "❌ Conversation not found or expired."] }
    else if prompt = "reject_chat" ∨ strIn "reject" (pyLower prompt) then
      match ud.conversation_id.bind st.convs, ud.conversation_id with
      | some conv, some cid =>
        let m1 := sendText conv.customer
          "Sorry, the agent is unable to take your chat at this time. Please try again later or leave a message."
        let st := st.delConv cid
        let out := handle_welcome "" conv.customer st
        { out with msgs := m1 :: out.msgs }
      | _, _ =>
        { store := st, ret := some { step := some "agent_response" }, msgs := [] }
    else
      { store := st, ret := some { step := some "agent_response" },
        msgs := [sendText sender "Invalid selection. Please choose 'Accept Chat' or 'Reject Chat'."] }
  else handle_welcome "" sender st

/-- `agent_response` (src/main.py lines 1631-1873): a truthy
`conversation_id` (a non-empty string) whose record exists routes into the
conversation body, otherwise into the tail. -/
def agent_response (prompt sender : String) (ud : UserState) (st : Store) : HandlerOut :=
  match ud.conversation_id with
  | some cid =>
    if cid = "" then agent_response_tail prompt sender ud st
    else
      match st.convs cid with
      | some conv => agent_response_conv prompt sender st cid conv
      | none => agent_response_tail prompt sender ud st
  | none => agent_response_tail prompt sender ud st

/-- The keys of `action_mapping` (src/main.py lines 1876-1893). -/
def actionMappingKeys : List String :=
  ["welcome", "restart_confirmation", "main_menu", "about_menu", "services_menu",
   "service_detail", "chatbot_menu", "get_quote_info", "quote_followup",
   "support_menu", "get_support_details", "contact_menu", "get_callback_details",
   "human_agent", "agent_response"]

/-- `get_action` (src/main.py lines 1895-1908), successful-handler path:
dispatch on `action_mapping` with `handle_welcome` as the default for an
unknown step.  `sender` is `user_data['sender']` (always set by
`message_handler` before dispatch); `rid` the randomness oracle. -/
def get_action (current_state prompt sender : String) (ud : UserState) (st : Store)
    (rid : String) : HandlerOut :=
  if current_state = "welcome" then handle_welcome prompt sender st
  else if current_state = "restart_confirmation" then handle_restart_confirmation prompt sender st
  else if current_state = "main_menu" then handle_main_menu prompt sender st
  else if current_state = "about_menu" then handle_about_menu prompt sender st
  else if current_state = "services_menu" then handle_services_menu prompt sender st
  else if current_state = "service_detail" then handle_service_detail prompt sender ud st
  else if current_state = "chatbot_menu" then handle_chatbot_menu prompt sender st
  else if current_state = "get_quote_info" then handle_get_quote_info prompt sender ud st
  else if current_state = "quote_followup" then handle_quote_followup prompt sender ud st rid
  else if current_state = "support_menu" then handle_support_menu prompt sender ud st
  else if current_state = "get_support_details" then handle_get_support_details prompt sender ud st rid
  else if current_state = "contact_menu" then handle_contact_menu prompt sender ud st rid
  else if current_state = "get_callback_details" then handle_get_callback_details prompt sender ud st rid
  else if current_state = "human_agent" then agent_response prompt sender ud st
  else if current_state = "agent_response" then agent_response prompt sender ud st
  else handle_welcome prompt sender st

/-- The `except` branch of `get_action` (src/main.py lines 1905-1908): when
the dispatched handler raises, the dispatcher logs and returns
`handle_welcome("", user_data, phone_id)`. -/
def get_action_on_error (sender : String) (st : Store) : HandlerOut :=
  handle_welcome "" sender st

/-- The tail of every `message_handler` branch:
`update_user_state(sender, updated_state)`.  A Python `None` return makes
that call raise (`dict.update(None)`), aborting the webhook with the store
as the handler left it. -/
def finishHandler (sender : String) (out : HandlerOut) : Store × List SentMsg :=
  match out.ret with
  | some upd => (update_user_state out.store sender upd, out.msgs)
  | none => (out.store, out.msgs)

/-- `message_handler` (src/main.py lines 548-619): agent routing, active-chat
routing, greeting reset, then step dispatch.  In the agent branch,
`agent_response`'s `user_data['sender']` is the stored document's `sender`
value (defaulting to the inbound identifier when absent). -/
def message_handler (prompt sender : String) (st : Store) (rid : String) :
    Store × List SentMsg :=
  let text := pyLower (pyStrip prompt)
  let normalized_sender := normalize_phone_number sender
  if normalized_sender ∈ AGENT_NUMBERS ∨ sender ∈ AGENT_NUMBERS then
    let state := get_user_state st sender
    let state :=
      if state.step ≠ some "agent_response" then
        let normalized_state := get_user_state st normalized_sender
        if normalized_state.step = some "agent_response" then normalized_state else state
      else state
    if state.step ≠ some "agent_response" then
      let st := update_user_state st sender { step := some "agent_response", sender := some sender }
      let state := get_user_state st sender
      finishHandler sender (agent_response prompt (state.sender.getD sender) state st)
    else
      finishHandler sender (agent_response prompt (state.sender.getD sender) state st)
  else
    let user_state := { get_user_state st sender with sender := some sender }
    if user_state.step = some "agent_response" ∧ user_state.active_chat.getD false = true then
      finishHandler sender (agent_response prompt sender user_state st)
    else if text ∈ (["hi", "hello", "hie", "hey", "start"] : List String) then
      let fresh : UserState := { step := some "welcome", sender := some sender }
      finishHandler sender (get_action "welcome" "" sender fresh st rid)
    else
      let step :=
        match user_state.step with
        | some s => if s = "" then "welcome" else s
        | none => "welcome"
      finishHandler sender (get_action step prompt sender user_state st rid)

/-- The step names a reachable session can hold: every key of
`action_mapping` except the unreachable `chatbot_menu` (no handler ever
stores it), plus `request_more_info`, which `handle_about_menu`'s `PROFILE`
branch stores although the dispatch table has no such key. -/
def Rsteps : List String :=
  ["welcome", "restart_confirmation", "main_menu", "about_menu", "services_menu",
   "service_detail", "get_quote_info", "quote_followup", "support_menu",
   "get_support_details", "contact_menu", "get_callback_details", "human_agent",
   "agent_response", "request_more_info"]

/-- A `step` value (or absent key) drawn from `Rsteps`. -/
def StepOK (s : Option String) : Prop :=
  ∀ x, s = some x → x ∈ Rsteps

/-- Every stored session document's `step` is drawn from `Rsteps`. -/
def StoreOK (st : Store) : Prop :=
  ∀ u d, st.users u = some d → StepOK d.step

/-- A handler outcome whose store and returned dict only carry `Rsteps`
step values. -/
def OutOK (out : HandlerOut) : Prop :=
  StoreOK out.store ∧ ∀ u, out.ret = some u → StepOK u.step

/-- The choice steps whose handlers re-prompt and stay on no match. -/
def choiceSteps : List String :=
  ["main_menu", "about_menu", "services_menu", "chatbot_menu", "quote_followup",
   "support_menu", "contact_menu"]

/-- Whether the matcher of choice step `s` finds no option for `prompt`. -/
def stepMatcherMisses (s prompt : String) : Bool :=
  if s = "main_menu" then (containMatch mainMenuList MainMenuOption.value prompt).isNone
  else if s = "about_menu" then (containMatch aboutList AboutOption.value prompt).isNone
  else if s = "services_menu" then (servicesMatch prompt).isNone
  else if s = "chatbot_menu" then (containMatch chatbotList ChatbotOption.value prompt).isNone
  else if s = "quote_followup" then (containMatch quoteList QuoteOption.value prompt).isNone
  else if s = "support_menu" then (containMatch supportList SupportOption.value prompt).isNone
  else if s = "contact_menu" then (containMatch contactList ContactOption.value prompt).isNone
  else false

/-- Concrete scenario: a customer who reached the contact menu and asked for
an agent, creating a `Requested` handoff with conversation id `demoRid`. -/
def demoCust : String := "263771000004"

def demoRid : String := "RID00004"

def demoStore : Store :=
  (message_handler "Speak to an agent" demoCust
    ((message_handler "Contact Us" demoCust
      ((message_handler "hi" demoCust emptyStore demoRid).1) demoRid).1) demoRid).1

/-- The scenario store after the agent accepted `demoRid`. -/
def demoActive : Store :=
  (message_handler "accept_chat" "+263785019494" demoStore demoRid).1

/-- Concrete scenario: a customer who filled the whole quote form and sits
at `quote_followup` with `field = "description"` still stored. -/
def quoteCust : String := "263771000006"

def quoteStore : Store :=
  (message_handler "A simple site" quoteCust
    ((message_handler "Website Development" quoteCust
      ((message_handler "john@example.com" quoteCust
        ((message_handler "John Doe" quoteCust
          ((message_handler "Request a Quote" quoteCust
            ((message_handler "hi" quoteCust emptyStore "R6").1) "R6").1) "R6").1)
        "R6").1) "R6").1) "R6").1

/-- Concrete scenario: a fresh customer sitting at the main menu. -/
def menuCust : String := "263771000007"

def menuStore : Store := (message_handler "hi" menuCust emptyStore "R7").1

lemma stepOK_none : StepOK none := by
  intro x hx
  cases hx

lemma stepOK_some {s : String} (h : s ∈ Rsteps) : StepOK (some s) := by
  intro x hx
  injection hx with hx
  exact hx ▸ h

lemma stepOK_orElse {a b : Option String} (ha : StepOK a) (hb : StepOK b) :
    StepOK (a <|> b) := by
  cases a with
  | some y => intro x hx; exact ha x hx
  | none => intro x hx; exact hb x hx

lemma get_user_state_ok (st : Store) (u : String) (h : StoreOK st) :
    StepOK (get_user_state st u).step := by
  rcases hc : st.users u with _ | d
  · simp only [get_user_state, hc]
    exact stepOK_some (by decide)
  · simp only [get_user_state, hc]
    exact h u d hc

lemma get_user_state_eq {st : Store} {k : String} {d : UserState}
    (h : st.users k = some d) : get_user_state st k = d := by
  simp only [get_user_state, h]

lemma update_users_self (st : Store) (k : String) (upd : UserState) :
    (update_user_state st k upd).users k =
      some { mergeState (get_user_state st k) upd with
             phone_number := some k,
             sender := some ((mergeState (get_user_state st k) upd).sender.getD k) } := by
  simp [update_user_state, Store.setUser]

lemma update_users_other (st : Store) (k u : String) (upd : UserState) (h : u ≠ k) :
    (update_user_state st k upd).users u = st.users u := by
  simp [update_user_state, Store.setUser, h]

lemma update_convs (st : Store) (k : String) (upd : UserState) :
    (update_user_state st k upd).convs = st.convs := rfl

lemma mergeState_step (cur upd : UserState) :
    (mergeState cur upd).step = (upd.step <|> cur.step) := rfl

lemma update_user_state_ok (st : Store) (k : String) (upd : UserState)
    (hst : StoreOK st) (hupd : StepOK upd.step) :
    StoreOK (update_user_state st k upd) := by
  intro u d hd
  by_cases hu : u = k
  · subst hu
    rw [update_users_self] at hd
    injection hd with hd
    subst hd
    exact stepOK_orElse hupd (get_user_state_ok st u hst)
  · rw [update_users_other st k u upd hu] at hd
    exact hst u d hd

lemma storeOK_setConv {st : Store} (k : String) (v : ConvData) (h : StoreOK st) :
    StoreOK (st.setConv k v) := h

lemma storeOK_delConv {st : Store} (k : String) (h : StoreOK st) :
    StoreOK (st.delConv k) := h

lemma storeOK_empty : StoreOK emptyStore := by
  intro u d hd
  simp [emptyStore] at hd

lemma retOK_none : ∀ u, (none : Option UserState) = some u → StepOK u.step := by
  intro u hu
  cases hu

lemma retOK_some {u0 : UserState} (h : StepOK u0.step) :
    ∀ u, (some u0 : Option UserState) = some u → StepOK u.step := by
  intro u hu
  injection hu with hu
  exact hu ▸ h

lemma outOK_msgs {out : HandlerOut} (h : OutOK out) (ms : List SentMsg) :
    OutOK { out with msgs := ms } := ⟨h.1, h.2⟩

lemma handle_welcome_ok (p sender : String) (st : Store) (h : StoreOK st) :
    OutOK (handle_welcome p sender st) :=
  ⟨update_user_state_ok st sender _ h (stepOK_some (by decide)),
   retOK_some (stepOK_some (by decide))⟩

lemma handle_restart_confirmation_ok (p sender : String) (st : Store) (h : StoreOK st) :
    OutOK (handle_restart_confirmation p sender st) := by
  unfold handle_restart_confirmation
  dsimp only
  split
  · exact ⟨update_user_state_ok st sender _ h (stepOK_some (by decide)),
      retOK_some (stepOK_some (by decide))⟩
  · split
    · exact handle_welcome_ok "" sender st h
    · split
      · exact ⟨update_user_state_ok st sender _ h (stepOK_some (by decide)),
          retOK_some (stepOK_some (by decide))⟩
      · exact ⟨h, retOK_some (stepOK_some (by decide))⟩

lemma handle_main_menu_ok (p sender : String) (st : Store) (h : StoreOK st) :
    OutOK (handle_main_menu p sender st) := by
  unfold handle_main_menu
  dsimp only
  cases hm : containMatch mainMenuList MainMenuOption.value p with
  | none => exact ⟨h, retOK_some (stepOK_some (by decide))⟩
  | some o =>
    cases o <;>
      exact ⟨update_user_state_ok st sender _ h (stepOK_some (by decide)),
        retOK_some (stepOK_some (by decide))⟩

lemma handle_about_menu_ok (p sender : String) (st : Store) (h : StoreOK st) :
    OutOK (handle_about_menu p sender st) := by
  unfold handle_about_menu
  dsimp only
  cases hm : containMatch aboutList AboutOption.value p with
  | none => exact ⟨h, retOK_some (stepOK_some (by decide))⟩
  | some o =>
    cases o with
    | PORTFOLIO => exact outOK_msgs (handle_welcome_ok "" sender st h) _
    | PROFILE =>
      exact ⟨update_user_state_ok st sender _ h (stepOK_some (by decide)),
        retOK_some (stepOK_some (by decide))⟩
    | BACK => exact handle_welcome_ok "" sender st h

lemma handle_services_menu_ok (p sender : String) (st : Store) (h : StoreOK st) :
    OutOK (handle_services_menu p sender st) := by
  unfold handle_services_menu
  dsimp only
  cases hm : servicesMatch p with
  | none => exact ⟨h, retOK_some (stepOK_some (by decide))⟩
  | some o =>
    exact ⟨update_user_state_ok _ sender _
        (update_user_state_ok st sender _ h (stepOK_some (by decide)))
        (stepOK_some (by decide)),
      retOK_some (stepOK_some (by decide))⟩

lemma handle_service_detail_ok (p sender : String) (ud : UserState) (st : Store)
    (h : StoreOK st) : OutOK (handle_service_detail p sender ud st) := by
  unfold handle_service_detail
  dsimp only
  split
  · exact ⟨update_user_state_ok st sender _ h (stepOK_some (by decide)),
      retOK_some (stepOK_some (by decide))⟩
  · split
    · exact ⟨update_user_state_ok st sender _ h (stepOK_some (by decide)),
        retOK_some (stepOK_some (by decide))⟩
    · exact ⟨h, retOK_some (stepOK_some (by decide))⟩


lemma handle_get_quote_info_ok (p sender : String) (ud : UserState) (st : Store)
    (h : StoreOK st) : OutOK (handle_get_quote_info p sender ud st) := by
  unfold handle_get_quote_info
  rcases hu : ud.user with _ | u
  · simp only [hu]
    exact ⟨h, retOK_some (stepOK_some (by decide))⟩
  · simp only [hu]
    split
    · exact ⟨update_user_state_ok st sender _ h (stepOK_some (by decide)),
        retOK_some (stepOK_some (by decide))⟩
    · split
      · exact ⟨update_user_state_ok st sender _ h (stepOK_some (by decide)),
          retOK_some (stepOK_some (by decide))⟩
      · split
        · exact ⟨update_user_state_ok st sender _ h (stepOK_some (by decide)),
            retOK_some (stepOK_some (by decide))⟩
        · split
          · exact ⟨update_user_state_ok st sender _ h (stepOK_some (by decide)),
              retOK_some (stepOK_some (by decide))⟩
          · exact ⟨h, retOK_none⟩

lemma handle_quote_followup_ok (p sender : String) (ud : UserState) (st : Store)
    (rid : String) (h : StoreOK st) : OutOK (handle_quote_followup p sender ud st rid) := by
  unfold handle_quote_followup
  rcases hm : containMatch quoteList QuoteOption.value p with _ | opt
  · simp only [hm]
    exact ⟨h, retOK_some (stepOK_some (by decide))⟩
  · simp only [hm]
    rcases hu : ud.user with _ | u
    · simp only [hu]
      exact ⟨h, retOK_some (stepOK_some (by decide))⟩
    · simp only [hu]
      cases opt with
      | CALLBACK =>
        rcases hd : u.project_description with _ | d
        · simp only [hd]
          exact ⟨h, retOK_some (stepOK_some (by decide))⟩
        · simp only [hd]
          exact outOK_msgs (handle_welcome_ok "" sender st h) _
      | NO_CALLBACK => exact outOK_msgs (handle_welcome_ok "" sender st h) _
      | BACK => exact handle_main_menu_ok MainMenuOption.QUOTE.value sender st h

lemma handle_support_menu_ok (p sender : String) (ud : UserState) (st : Store)
    (h : StoreOK st) : OutOK (handle_support_menu p sender ud st) := by
  unfold handle_support_menu
  rcases hm : containMatch supportList SupportOption.value p with _ | o
  · simp only [hm]
    exact ⟨h, retOK_some (stepOK_some (by decide))⟩
  · simp only [hm]
    split
    · exact handle_welcome_ok "" sender st h
    · exact ⟨update_user_state_ok st sender _ h (stepOK_some (by decide)),
        retOK_some (stepOK_some (by decide))⟩

lemma human_agent_ok (p sender : String) (ud : UserState) (st : Store) (rid : String)
    (h : StoreOK st) : OutOK (human_agent p sender ud st rid) := by
  unfold human_agent
  refine ⟨?_, retOK_some (stepOK_some (by decide))⟩
  dsimp only
  split
  · exact update_user_state_ok _ _ _
      (update_user_state_ok _ _ _
        (update_user_state_ok _ _ _ (storeOK_setConv _ _ h) (stepOK_some (by decide)))
        (stepOK_some (by decide)))
      (stepOK_some (by decide))
  · exact update_user_state_ok _ _ _
      (update_user_state_ok _ _ _ (storeOK_setConv _ _ h) (stepOK_some (by decide)))
      (stepOK_some (by decide))

lemma handle_get_support_details_ok (p sender : String) (ud : UserState) (st : Store)
    (rid : String) (h : StoreOK st) : OutOK (handle_get_support_details p sender ud st rid) := by
  unfold handle_get_support_details
  rcases hu : ud.user with _ | u
  · simp only [hu]
    exact ⟨h, retOK_some (stepOK_some (by decide))⟩
  · simp only [hu]
    rcases hs : u.support_type with _ | sup
    · simp only [hs]
      exact ⟨h, retOK_some (stepOK_some (by decide))⟩
    · simp only [hs]
      exact outOK_msgs (human_agent_ok "" sender ud st rid h) _

lemma handle_contact_menu_ok (p sender : String) (ud : UserState) (st : Store)
    (rid : String) (h : StoreOK st) : OutOK (handle_contact_menu p sender ud st rid) := by
  unfold handle_contact_menu
  rcases hm : containMatch contactList ContactOption.value p with _ | o
  · simp only [hm]
    exact ⟨h, retOK_some (stepOK_some (by decide))⟩
  · simp only [hm]
    cases o with
    | CALLBACK =>
      exact ⟨update_user_state_ok st sender _ h (stepOK_some (by decide)),
        retOK_some (stepOK_some (by decide))⟩
    | AGENT => exact outOK_msgs (human_agent_ok "" sender ud st rid h) _
    | BACK => exact handle_welcome_ok "" sender st h

lemma handle_get_callback_details_ok (p sender : String) (ud : UserState) (st : Store)
    (rid : String) (h : StoreOK st) : OutOK (handle_get_callback_details p sender ud st rid) := by
  unfold handle_get_callback_details
  dsimp only
  split
  · exact ⟨update_user_state_ok st sender _ h (stepOK_some (by decide)),
      retOK_some (stepOK_some (by decide))⟩
  · split
    · exact outOK_msgs (handle_welcome_ok "" sender st h) _
    · exact ⟨h, retOK_none⟩

lemma agent_response_conv_ok (p sender : String) (st : Store) (cid : String)
    (conv : ConvData) (h : StoreOK st) : OutOK (agent_response_conv p sender st cid conv) := by
  unfold agent_response_conv
  dsimp only
  split
  · -- not yet active: accept / reject / invalid / customer-wait
    split
    · split
      · exact ⟨update_user_state_ok _ _ _
          (update_user_state_ok _ _ _ (storeOK_setConv _ _ h) (stepOK_some (by decide)))
          (stepOK_some (by decide)),
          retOK_some (stepOK_some (by decide))⟩
      · split
        · exact outOK_msgs (handle_welcome_ok "" conv.customer (st.delConv cid) h) _
        · exact ⟨h, retOK_some (stepOK_some (by decide))⟩
    · exact ⟨h, retOK_some (stepOK_some (by decide))⟩
  · split
    · -- exit teardown
      split
      · exact outOK_msgs
          (handle_restart_confirmation_ok "" conv.customer _
            (storeOK_delConv _ (update_user_state_ok _ _ _ h (stepOK_some (by decide))))) _
      · exact outOK_msgs
          (handle_restart_confirmation_ok "" conv.customer _
            (storeOK_delConv _ (update_user_state_ok _ _ _
              (update_user_state_ok _ _ _ h (stepOK_some (by decide)))
              (stepOK_some (by decide))))) _
    · exact ⟨h, retOK_some (stepOK_some (by decide))⟩

lemma agent_response_tail_ok (p sender : String) (ud : UserState) (st : Store)
    (h : StoreOK st) : OutOK (agent_response_tail p sender ud st) := by
  unfold agent_response_tail
  split
  · split
    · -- accept path
      split
      · exact ⟨update_user_state_ok _ _ _
          (update_user_state_ok _ _ _ (storeOK_setConv _ _ h) (stepOK_some (by decide)))
          (stepOK_some (by decide)),
          retOK_some (stepOK_some (by decide))⟩
      · exact ⟨h, retOK_some (stepOK_some (by decide))⟩
    · split
      · -- reject path
        split
        · exact outOK_msgs (handle_welcome_ok "" _ _ (storeOK_delConv _ h)) _
        · exact ⟨h, retOK_some (stepOK_some (by decide))⟩
      · exact ⟨h, retOK_some (stepOK_some (by decide))⟩
  · exact handle_welcome_ok "" sender st h

lemma agent_response_ok (p sender : String) (ud : UserState) (st : Store)
    (h : StoreOK st) : OutOK (agent_response p sender ud st) := by
  unfold agent_response
  rcases hc : ud.conversation_id with _ | cid
  · simp only [hc]
    exact agent_response_tail_ok p sender ud st h
  · simp only [hc]
    split
    · exact agent_response_tail_ok p sender ud st h
    · rcases hv : st.convs cid with _ | conv
      · simp only [hv]
        exact agent_response_tail_ok p sender ud st h
      · simp only [hv]
        exact agent_response_conv_ok p sender st cid conv h

lemma get_action_ok (s p sender : String) (ud : UserState) (st : Store) (rid : String)
    (hs : s ∈ Rsteps) (h : StoreOK st) : OutOK (get_action s p sender ud st rid) := by
  have hs2 : s = "welcome" ∨ s = "restart_confirmation" ∨ s = "main_menu" ∨
      s = "about_menu" ∨ s = "services_menu" ∨ s = "service_detail" ∨
      s = "get_quote_info" ∨ s = "quote_followup" ∨ s = "support_menu" ∨
      s = "get_support_details" ∨ s = "contact_menu" ∨ s = "get_callback_details" ∨
      s = "human_agent" ∨ s = "agent_response" ∨ s = "request_more_info" := by
    simpa [Rsteps] using hs
  rcases hs2 with rfl | rfl | rfl | rfl | rfl | rfl | rfl | rfl | rfl | rfl | rfl | rfl | rfl | rfl | rfl
  · exact handle_welcome_ok p sender st h
  · exact handle_restart_confirmation_ok p sender st h
  · exact handle_main_menu_ok p sender st h
  · exact handle_about_menu_ok p sender st h
  · exact handle_services_menu_ok p sender st h
  · exact handle_service_detail_ok p sender ud st h
  · exact handle_get_quote_info_ok p sender ud st h
  · exact handle_quote_followup_ok p sender ud st rid h
  · exact handle_support_menu_ok p sender ud st h
  · exact handle_get_support_details_ok p sender ud st rid h
  · exact handle_contact_menu_ok p sender ud st rid h
  · exact handle_get_callback_details_ok p sender ud st rid h
  · exact agent_response_ok p sender ud st h
  · exact agent_response_ok p sender ud st h
  · exact handle_welcome_ok p sender st h

lemma finishHandler_ok (sender : String) (out : HandlerOut) (h : OutOK out) :
    StoreOK (finishHandler sender out).1 := by
  unfold finishHandler
  rcases hr : out.ret with _ | u
  · simp only [hr]
    exact h.1
  · simp only [hr]
    exact update_user_state_ok _ _ _ h.1 (h.2 u hr)

lemma message_handler_ok (p sender : String) (st : Store) (rid : String)
    (h : StoreOK st) : StoreOK (message_handler p sender st rid).1 := by
  unfold message_handler
  dsimp only
  split
  · -- sender is an agent: the store is either used as-is or first receives
    -- the forced step update
    have hup : StoreOK (update_user_state st sender
        { step := some "agent_response", sender := some sender }) :=
      update_user_state_ok st sender _ h (@stepOK_some "agent_response" (by decide))
    by_cases c0 : (get_user_state st sender).step = some "agent_response" <;>
      by_cases c1 : (get_user_state st (normalize_phone_number sender)).step =
        some "agent_response" <;>
      simp only [c0, c1, ne_eq, not_true_eq_false, not_false_eq_true, ite_true,
        ite_false, if_true, if_false] <;>
      first
      | exact finishHandler_ok _ _ (agent_response_ok _ _ _ _ h)
      | exact finishHandler_ok _ _ (agent_response_ok _ _ _ _ hup)
  · split
    · -- active chat routing
      exact finishHandler_ok _ _ (agent_response_ok _ _ _ _ h)
    · split
      · -- greeting reset
        exact finishHandler_ok _ _
          (get_action_ok "welcome" "" sender _ st rid (by decide) h)
      · -- dispatch on the stored step
        apply finishHandler_ok
        apply get_action_ok
        · have hstep := get_user_state_ok st sender h
          rcases hx : (get_user_state st sender).step with _ | s
          · simp only [hx]
            decide
          · have hs := hstep s hx
            simp only [hx]
            split
            · decide
            · exact hs
        · exact h

/-- C1 (counterexample): a reachable transition stores a step name that the
dispatch table does not contain.  A fresh user saying "hi", choosing
"Learn about Contessasoft" and then "Download company profile" ends with
stored step `request_more_info`, which is not a key of `action_mapping`
(src/main.py line 930 versus lines 1876-1893). -/
theorem C1_counterexample :
    let cust := "263771000000"
    let s1 := (message_handler "hi" cust emptyStore "R1").1
    let s2 := (message_handler "Learn about Contessasoft" cust s1 "R1").1
    let s3 := (message_handler "Download company profile" cust s2 "R1").1
    ((s3.users cust).map (fun d => d.step)) = some (some "request_more_info") ∧
    "request_more_info" ∉ actionMappingKeys := by
  decide

/-- C1 (amended): every step value a reachable transition stores lies in
`Rsteps`, i.e. is a key of `action_mapping` except for `request_more_info`
(stored by `handle_about_menu`'s profile branch), for which `get_action`
falls back to the welcome handler; processing any inbound message preserves
this invariant for every stored session. -/
theorem C1_step_invariant :
    (∀ prompt sender st rid, StoreOK st →
      StoreOK (message_handler prompt sender st rid).1) ∧
    (∀ s ∈ Rsteps, s ∈ actionMappingKeys ∨ s = "request_more_info") :=
  ⟨fun p sender st rid h => message_handler_ok p sender st rid h, by decide⟩

/-- C1 (witness): the invariant theorem applied to a concrete first contact
on an empty store. -/
theorem C1_witness :
    StoreOK (message_handler "hi" "263771000099" emptyStore "R1").1 :=
  C1_step_invariant.1 "hi" "263771000099" emptyStore "R1" storeOK_empty

/-- C6: for every option set of a choice step, a reply whose normalized
(stripped, lowercased) text equals the normalized label of an option selects
exactly that option, regardless of the other options.  The webhook strips
every inbound text before dispatch (src/main.py lines 688, 698, 707), so the
substring menus receive the stripped reply; `handle_services_menu` strips
and lowercases internally and short-circuits on exact equality. -/
theorem C6_exact_match_priority :
    (∀ raw o, o ∈ mainMenuList → pyLower (pyStrip raw) = pyLower (MainMenuOption.value o) →
      containMatch mainMenuList MainMenuOption.value (pyStrip raw) = some o) ∧
    (∀ raw o, o ∈ aboutList → pyLower (pyStrip raw) = pyLower (AboutOption.value o) →
      containMatch aboutList AboutOption.value (pyStrip raw) = some o) ∧
    (∀ raw o, o ∈ chatbotList → pyLower (pyStrip raw) = pyLower (ChatbotOption.value o) →
      containMatch chatbotList ChatbotOption.value (pyStrip raw) = some o) ∧
    (∀ raw o, o ∈ quoteList → pyLower (pyStrip raw) = pyLower (QuoteOption.value o) →
      containMatch quoteList QuoteOption.value (pyStrip raw) = some o) ∧
    (∀ raw o, o ∈ supportList → pyLower (pyStrip raw) = pyLower (SupportOption.value o) →
      containMatch supportList SupportOption.value (pyStrip raw) = some o) ∧
    (∀ raw o, o ∈ contactList → pyLower (pyStrip raw) = pyLower (ContactOption.value o) →
      containMatch contactList ContactOption.value (pyStrip raw) = some o) ∧
    (∀ raw o, o ∈ serviceList → pyLower (pyStrip raw) = pyLower (ServiceOption.value o) →
      servicesMatch raw = some o) := by
  refine ⟨?_, ?_, ?_, ?_, ?_, ?_, ?_⟩ <;>
    · intro raw o ho heq
      first
      | (simp only [containMatch, heq]
         clear heq
         revert o
         decide)
      | (simp only [servicesMatch, heq]
         clear heq
         revert o
         decide)

/-- C6 (witness): an exact "Our Services" reply, with surrounding blanks the
webhook strips, selects the `SERVICES` option. -/
theorem C6_witness :
    containMatch mainMenuList MainMenuOption.value (pyStrip " Our Services ") =
      some MainMenuOption.SERVICES :=
  C6_exact_match_priority.1 " Our Services " MainMenuOption.SERVICES (by decide) (by decide)

lemma containMatch_append {α : Type} (pre post : List α) (value : α → String)
    (p : String) (o : α)
    (ho : strIn (pyLower p) (pyLower (value o)) = true)
    (hpre : ∀ x ∈ pre, strIn (pyLower p) (pyLower (value x)) = false) :
    containMatch (pre ++ o :: post) value p = some o := by
  unfold containMatch
  induction pre with
  | nil =>
    rw [List.nil_append]
    exact List.find?_cons_of_pos _ ho
  | cons a as ih =>
    rw [List.cons_append,
      List.find?_cons_of_neg _ (by simp [hpre a (List.mem_cons_self a as)])]
    exact ih (fun x hx => hpre x (List.mem_cons_of_mem a hx))

/-- C10: in the substring-containment menus, the loop selects the first
option in declaration order whose lowercased label contains the lowercased
reply; in particular the one-character reply "o" at the main menu selects
"Learn about Contessasoft" (the first label containing an "o") and
transitions to `about_menu` instead of re-prompting. -/
theorem C10_substring_first_match :
    (∀ (α : Type) (pre post : List α) (value : α → String) (p : String) (o : α),
        strIn (pyLower p) (pyLower (value o)) = true →
        (∀ x ∈ pre, strIn (pyLower p) (pyLower (value x)) = false) →
        containMatch (pre ++ o :: post) value p = some o) ∧
    containMatch mainMenuList MainMenuOption.value "o" = some MainMenuOption.ABOUT ∧
    (let cust := "263771000010"
     let s1 := (message_handler "hi" cust emptyStore "R1").1
     ((message_handler "o" cust s1 "R1").1.users cust).map (fun d => d.step) =
       some (some "about_menu")) :=
  ⟨fun _ pre post value p o ho hpre => containMatch_append pre post value p o ho hpre,
   by decide, by decide⟩

/-- C10 (witness): the first-match rule applied to the main menu split
around `SERVICES` for the reply "our serv". -/
theorem C10_witness :
    containMatch ([MainMenuOption.ABOUT] ++ MainMenuOption.SERVICES ::
        [MainMenuOption.QUOTE, MainMenuOption.SUPPORT, MainMenuOption.CONTACT])
      MainMenuOption.value "our serv" = some MainMenuOption.SERVICES :=
  C10_substring_first_match.1 MainMenuOption [MainMenuOption.ABOUT]
    [MainMenuOption.QUOTE, MainMenuOption.SUPPORT, MainMenuOption.CONTACT]
    MainMenuOption.value "our serv" MainMenuOption.SERVICES (by decide) (by decide)

/-- C8 (counterexample): when a step handler raises, the dispatch boundary
(`get_action`'s except branch) runs `handle_welcome("")`: at a concrete
input the user's stored step becomes `main_menu` — not the initial step
`welcome` that a fresh session gets — and the only message sent is the
welcome menu list, not a generic apology. -/
theorem C8_counterexample :
    let out := get_action_on_error "263771000020" emptyStore
    let st := (finishHandler "263771000020" out).1
    ((st.users "263771000020").map (fun d => d.step)) = some (some "main_menu") ∧
    some "main_menu" ≠ some "welcome" ∧
    (get_user_state emptyStore "263771000020").step = some "welcome" ∧
    out.msgs = [sendList "263771000020" welcome_msg] ∧
    welcome_msg ≠ err_text := by
  decide

/-- C8 (amended): a handler exception is caught at the dispatch boundary and
converted into running the welcome handler on the user's session: the
session is rewritten with step `main_menu` (never dropped or left as-is) and
the user is sent the welcome menu list.  No apology text is sent at this
boundary; the apology strings come from the individual handlers' own
`except` blocks. -/
theorem C8_dispatch_exception_resets (sender : String) (st : Store) :
    (get_action_on_error sender st).ret = some { step := some "main_menu" } ∧
    (get_action_on_error sender st).msgs = [sendList sender welcome_msg] ∧
    ∃ d, (get_action_on_error sender st).store.users sender = some d ∧
      d.step = some "main_menu" :=
  ⟨rfl, rfl, ⟨_, update_users_self st sender _, rfl⟩⟩

/-- C4 (counterexample): an agent rejecting a `Requested` handoff deletes the
record, but the customer's stored step becomes `main_menu` (the step the
welcome handler stores), not the initial step `welcome` that a fresh session
holds. -/
theorem C4_counterexample :
    let cust := "263771000001"
    let s1 := (message_handler "hi" cust emptyStore "RID00001").1
    let s2 := (message_handler "Contact Us" cust s1 "RID00001").1
    let s3 := (message_handler "Speak to an agent" cust s2 "RID00001").1
    let s4 := (message_handler "reject_chat" "+263785019494" s3 "RID00001").1
    s4.convs "RID00001" = none ∧
    ((s4.users cust).map (fun d => d.step)) = some (some "main_menu") ∧
    (get_user_state emptyStore cust).step = some "welcome" ∧
    some "main_menu" ≠ some "welcome" := by
  decide

/-- C2 (counterexample): entering the handoff leaves the conversation in
`Requested` (`active=false`) and sends the customer exactly two texts — the
"connecting" notices — neither of which offers a choice to return to the
menu; the code base has no timer, so with no further inbound messages
nothing more is ever sent (in particular, nothing after 90 seconds). -/
theorem C2_counterexample :
    let cust := "263771000002"
    let s1 := (message_handler "hi" cust emptyStore "RID00002").1
    let s2 := (message_handler "Contact Us" cust s1 "RID00002").1
    let out := message_handler "Speak to an agent" cust s2 "RID00002"
    out.1.convs "RID00002" =
      some { customer := cust, agent := "+263785019494", active := false } ∧
    (out.2.filter (fun m => m.recipient = cust)).map SentMsg.text =
      ["Connecting you to an agent...\nIf no one is available immediately, your message will be forwarded and you'll receive a response soon.",
       "🚀 Connecting you to an agent...\n\nYour conversation ID: RID00002\nPlease wait for the agent to accept your request."] ∧
    (out.2.all (fun m => !(strIn "menu" (pyLower m.text)))) = true := by
  decide

/-- C9 (counterexample): completing the quote form end-to-end leaves the
stored session with the stale collection marker `field = "description"`
alongside the completed `user` form; the step does move on to `main_menu`,
but the "in progress" `field` key is never cleared (merge-only
`update_user_state`, src/main.py lines 276-288, and the `quote_followup`
returns that never drop it). -/
theorem C9_counterexample :
    let cust := "263771000003"
    let s1 := (message_handler "hi" cust emptyStore "R9").1
    let s2 := (message_handler "Request a Quote" cust s1 "R9").1
    let s3 := (message_handler "John Doe" cust s2 "R9").1
    let s4 := (message_handler "john@example.com" cust s3 "R9").1
    let s5 := (message_handler "Website Development" cust s4 "R9").1
    let s6 := (message_handler "A simple site" cust s5 "R9").1
    let s7 := (message_handler "No, just send the quote" cust s6 "R9").1
    ((s7.users cust).map (fun d => (d.step, d.field))) =
      some (some "main_menu", some "description") ∧
    ((s7.users cust).map (fun d => d.user)) =
      some (some { name := "John Doe", phone := cust, email := some "john@example.com",
                   service_type := some ServiceOption.WEBSITE,
                   project_description := some "A simple site",
                   callback_requested := false, support_type := none }) := by
  decide

lemma userState_set_sender_self (d : UserState) (v : Option String) (h : d.sender = v) :
    { d with sender := v } = d := by
  cases d
  simp_all

/-- Routing: a message from the configured agent number whose stored session
is already in `agent_response` goes straight to `agent_response`. -/
lemma message_handler_agent (p : String) (st : Store) (rid : String) (ad : UserState)
    (had : st.users "+263785019494" = some ad)
    (hstep : ad.step = some "agent_response") :
    message_handler p "+263785019494" st rid =
      finishHandler "+263785019494"
        (agent_response p (ad.sender.getD "+263785019494") ad st) := by
  unfold message_handler
  dsimp only
  rw [if_pos (by decide :
    normalize_phone_number "+263785019494" ∈ AGENT_NUMBERS ∨
      "+263785019494" ∈ AGENT_NUMBERS)]
  rw [get_user_state_eq had]
  simp [hstep]

/-- Routing: a non-agent sender whose stored session is in `agent_response`
with `active_chat` set goes straight to `agent_response`. -/
lemma message_handler_active_chat (p cust : String) (st : Store) (rid : String)
    (cd : UserState)
    (hna : normalize_phone_number cust ∉ AGENT_NUMBERS) (hni : cust ∉ AGENT_NUMBERS)
    (hcd : st.users cust = some cd)
    (hstep : cd.step = some "agent_response")
    (hac : cd.active_chat = some true)
    (hsender : cd.sender = some cust) :
    message_handler p cust st rid = finishHandler cust (agent_response p cust cd st) := by
  unfold message_handler
  dsimp only
  rw [if_neg (not_or.mpr ⟨hna, hni⟩)]
  rw [get_user_state_eq hcd]
  rw [userState_set_sender_self cd (some cust) hsender]
  simp [hstep, hac]

/-- Routing: a non-agent, non-greeting message for a session that is not in
an active chat dispatches the stored step through `get_action`. -/
lemma message_handler_dispatch (p cust : String) (st : Store) (rid : String)
    (cd : UserState) (s : String)
    (hna : normalize_phone_number cust ∉ AGENT_NUMBERS) (hni : cust ∉ AGENT_NUMBERS)
    (hcd : st.users cust = some cd)
    (hstep : cd.step = some s) (hs : s ≠ "")
    (hnotagent : ¬(s = "agent_response" ∧ cd.active_chat.getD false = true))
    (hgreet : pyLower (pyStrip p) ∉ (["hi", "hello", "hie", "hey", "start"] : List String)) :
    message_handler p cust st rid =
      finishHandler cust (get_action s p cust { cd with sender := some cust } st rid) := by
  unfold message_handler
  dsimp only
  rw [if_neg (not_or.mpr ⟨hna, hni⟩)]
  rw [get_user_state_eq hcd]
  rw [if_neg (by simpa [hstep] using hnotagent)]
  rw [if_neg hgreet]
  simp [hstep, hs]

/-- Effect of an accept decision from the assigned agent on a `Requested`
conversation: the record is rewritten with `active=true` and the customer's,
the agent's, and the returned (re-merged) sessions all carry the
conversation id. -/
lemma agent_accept_effect (p : String) (st : Store) (rid : String)
    (cid : String) (conv : ConvData)
    (hconv : st.convs cid = some conv)
    (hagent : conv.agent = "+263785019494")
    (hactive : conv.active = false)
    (ad : UserState)
    (had : st.users "+263785019494" = some ad)
    (hadstep : ad.step = some "agent_response")
    (hadcid : ad.conversation_id = some cid) (hcidne : cid ≠ "")
    (hadsender : ad.sender = some "+263785019494")
    (haccept : p = "accept_chat" ∨ strIn "accept" (pyLower p) = true) :
    (message_handler p "+263785019494" st rid).1.convs cid =
      some { conv with active := true } ∧
    (∃ d, (message_handler p "+263785019494" st rid).1.users conv.customer = some d ∧
      d.conversation_id = some cid ∧ d.step = some "agent_response" ∧
      d.active_chat = some true) ∧
    (∃ d, (message_handler p "+263785019494" st rid).1.users "+263785019494" = some d ∧
      d.conversation_id = some cid ∧ d.step = some "agent_response" ∧
      d.active_chat = some true) := by
  rw [message_handler_agent p st rid ad had hadstep, hadsender]
  simp only [Option.getD_some]
  rw [show agent_response p "+263785019494" ad st =
      agent_response_conv p "+263785019494" st cid conv by
    simp only [agent_response, hadcid, if_neg hcidne, hconv]]
  unfold agent_response_conv
  rw [hactive, hagent]
  rw [if_pos (by simp : ¬ (false : Bool) = true)]
  rw [if_pos rfl, if_pos haccept]
  dsimp only [finishHandler]
  refine ⟨?_, ?_, ?_⟩
  · simp [update_user_state, Store.setUser, Store.setConv]
  · by_cases hCA : conv.customer = "+263785019494"
    · rw [hCA, update_users_self]
      exact ⟨_, rfl, rfl, rfl, rfl⟩
    · rw [update_users_other _ _ _ _ hCA, update_users_other _ _ _ _ hCA,
        update_users_self]
      exact ⟨_, rfl, rfl, rfl, rfl⟩
  · rw [update_users_self]
    exact ⟨_, rfl, rfl, rfl, rfl⟩

/-- Effect of a reject decision from the assigned agent on a `Requested`
conversation: the record is deleted and the customer is put through the
welcome handler (stored step `main_menu`, welcome list sent). -/
lemma agent_reject_effect (p : String) (st : Store) (rid : String)
    (cid : String) (conv : ConvData)
    (hconv : st.convs cid = some conv)
    (hagent : conv.agent = "+263785019494")
    (hactive : conv.active = false)
    (ad : UserState)
    (had : st.users "+263785019494" = some ad)
    (hadstep : ad.step = some "agent_response")
    (hadcid : ad.conversation_id = some cid) (hcidne : cid ≠ "")
    (hadsender : ad.sender = some "+263785019494")
    (hnacc : ¬(p = "accept_chat" ∨ strIn "accept" (pyLower p) = true))
    (hrej : p = "reject_chat" ∨ strIn "reject" (pyLower p) = true) :
    (message_handler p "+263785019494" st rid).1.convs cid = none ∧
    (∃ d, (message_handler p "+263785019494" st rid).1.users conv.customer = some d ∧
      d.step = some "main_menu") ∧
    sendList conv.customer welcome_msg ∈ (message_handler p "+263785019494" st rid).2 := by
  rw [message_handler_agent p st rid ad had hadstep, hadsender]
  simp only [Option.getD_some]
  rw [show agent_response p "+263785019494" ad st =
      agent_response_conv p "+263785019494" st cid conv by
    simp only [agent_response, hadcid, if_neg hcidne, hconv]]
  unfold agent_response_conv
  rw [hactive, hagent]
  rw [if_pos (by simp : ¬ (false : Bool) = true)]
  rw [if_pos rfl, if_neg hnacc, if_pos hrej]
  unfold handle_welcome
  dsimp only [finishHandler]
  refine ⟨?_, ?_, ?_⟩
  · simp [update_user_state, Store.setUser, Store.delConv]
  · by_cases hCA : conv.customer = "+263785019494"
    · rw [hCA, update_users_self]
      exact ⟨_, rfl, rfl⟩
    · rw [update_users_other _ _ _ _ hCA, update_users_self]
      exact ⟨_, rfl, rfl⟩
  · simp

/-- Effect of either party sending "exit" during an active conversation, at
the `agent_response` level: the record is deleted, the customer's stored
step becomes `restart_confirmation`, and the returned dict also carries the
`restart_confirmation` step. -/
lemma exit_teardown_effect (p sender : String) (st : Store)
    (cid : String) (conv : ConvData)
    (hconv : st.convs cid = some conv) (hactive : conv.active = true)
    (ud : UserState) (hudcid : ud.conversation_id = some cid) (hcidne : cid ≠ "")
    (hexit : pyLower p = "exit") :
    (agent_response p sender ud st).store.convs cid = none ∧
    (∃ d, (agent_response p sender ud st).store.users conv.customer = some d ∧
      d.step = some "restart_confirmation") ∧
    (agent_response p sender ud st).ret = some { step := some "restart_confirmation" } := by
  rw [show agent_response p sender ud st = agent_response_conv p sender st cid conv by
    simp only [agent_response, hudcid, if_neg hcidne, hconv]]
  unfold agent_response_conv
  rw [hactive]
  rw [if_neg (by simp : ¬¬(true : Bool) = true)]
  rw [if_pos hexit]
  by_cases hSA : sender = conv.agent
  · rw [if_pos hSA]
    unfold handle_restart_confirmation
    dsimp only
    rw [if_pos (by decide :
      pyLower (pyStrip "") = "" ∨
        pyLower (pyStrip "") ∈ (["restart", "start", "menu"] : List String))]
    dsimp only
    refine ⟨?_, ?_, rfl⟩
    · simp [update_user_state, Store.setUser, Store.delConv]
    · rw [update_users_self]
      exact ⟨_, rfl, rfl⟩
  · rw [if_neg hSA]
    unfold handle_restart_confirmation
    dsimp only
    rw [if_pos (by decide :
      pyLower (pyStrip "") = "" ∨
        pyLower (pyStrip "") ∈ (["restart", "start", "menu"] : List String))]
    dsimp only
    refine ⟨?_, ?_, rfl⟩
    · simp [update_user_state, Store.setUser, Store.delConv]
    · rw [update_users_self]
      exact ⟨_, rfl, rfl⟩

/-- While a conversation is `Requested`, an inbound message from the
customer is not relayed: the customer is told to wait, the record and the
customer's handoff session fields are unchanged. -/
lemma requested_wait_frame (p cust : String) (st : Store) (rid : String)
    (cd : UserState) (cid : String) (conv : ConvData)
    (hna : normalize_phone_number cust ∉ AGENT_NUMBERS) (hni : cust ∉ AGENT_NUMBERS)
    (hcd : st.users cust = some cd)
    (hstep : cd.step = some "agent_response")
    (hac : cd.active_chat.getD false = false)
    (hcid : cd.conversation_id = some cid) (hcidne : cid ≠ "")
    (hconv : st.convs cid = some conv) (hactive : conv.active = false)
    (hne : cust ≠ conv.agent)
    (hgreet : pyLower (pyStrip p) ∉ (["hi", "hello", "hie", "hey", "start"] : List String)) :
    (message_handler p cust st rid).1.convs cid = some conv ∧
    (∃ d, (message_handler p cust st rid).1.users cust = some d ∧
      d.step = some "agent_response" ∧ d.conversation_id = some cid) ∧
    (message_handler p cust st rid).2 =
      [sendText conv.customer "Please wait for the agent to accept your request."] := by
  rw [message_handler_dispatch p cust st rid cd "agent_response" hna hni hcd hstep
      (by decide) (by simp [hac]) hgreet]
  rw [show get_action "agent_response" p cust { cd with sender := some cust } st rid =
      agent_response p cust { cd with sender := some cust } st from rfl]
  rw [show agent_response p cust { cd with sender := some cust } st =
      agent_response_conv p cust st cid conv by
    simp only [agent_response]
    simp only [hcid, if_neg hcidne, hconv]]
  unfold agent_response_conv
  rw [hactive]
  rw [if_pos (by simp : ¬ (false : Bool) = true)]
  rw [if_neg hne]
  dsimp only [finishHandler]
  refine ⟨hconv, ?_, rfl⟩
  rw [update_users_self]
  exact ⟨_, rfl, rfl, rfl⟩

lemma finishHandler_restart (sender cust0 : String) (out : HandlerOut) (cid : String)
    (h1 : out.store.convs cid = none)
    (h2 : ∃ d, out.store.users cust0 = some d ∧ d.step = some "restart_confirmation")
    (hr : out.ret = some { step := some "restart_confirmation" }) :
    (finishHandler sender out).1.convs cid = none ∧
    ∃ d, (finishHandler sender out).1.users cust0 = some d ∧
      d.step = some "restart_confirmation" := by
  unfold finishHandler
  rw [hr]
  dsimp only
  refine ⟨h1, ?_⟩
  by_cases hc : cust0 = sender
  · subst hc
    rw [update_users_self]
    exact ⟨_, rfl, rfl⟩
  · rw [update_users_other _ _ _ _ hc]
    exact h2

/-- After a re-prompt return dict `{step := s, user := uopt}` merges into a
document that already holds step `s`, its phone number and a sender, the
document is unchanged. -/
lemma nomatch_merge_eq (d : UserState) (s w sender : String) (uopt : Option UserRec)
    (hstep : d.step = some s) (hphone : d.phone_number = some sender)
    (hsender : d.sender = some w) (huser : uopt = none ∨ uopt = d.user) :
    { mergeState d { step := some s, user := uopt } with
        phone_number := some sender,
        sender := some ((mergeState d { step := some s, user := uopt }).sender.getD sender) }
      = d := by
  cases d
  rcases huser with rfl | rfl
  · simp_all [mergeState]
  · cases uopt <;> simp_all [mergeState]

lemma update_frame_eq (st : Store) (k : String) (upd d : UserState)
    (hd : st.users k = some d)
    (hmerged : { mergeState d upd with
        phone_number := some k,
        sender := some ((mergeState d upd).sender.getD k) } = d) :
    ∀ u, (update_user_state st k upd).users u = st.users u := by
  intro u
  by_cases hu : u = k
  · subst hu
    rw [update_users_self, get_user_state_eq hd, hmerged, hd]
  · exact update_users_other st k u upd hu

lemma update_self_fields (st : Store) (k : String) (upd : UserState) :
    ∃ d2, (update_user_state st k upd).users k = some d2 ∧
      d2.step = (upd.step <|> (get_user_state st k).step) ∧
      d2.user = (upd.user <|> (get_user_state st k).user) ∧
      d2.field = (upd.field <|> (get_user_state st k).field) :=
  ⟨_, update_users_self st k upd, rfl, rfl, rfl⟩

/-- C3: for every `Requested` handoff record (`active=false`), an accept
decision from the assigned agent (the `accept_chat` button id or any text
containing "accept") rewrites the record with `active=true`, and afterwards
both the customer's and the agent's stored sessions carry that record's
conversation id. -/
theorem C3_accept_path (p : String) (st : Store) (rid : String)
    (cid : String) (conv : ConvData)
    (hconv : st.convs cid = some conv)
    (hagent : conv.agent = "+263785019494")
    (hactive : conv.active = false)
    (ad : UserState)
    (had : st.users "+263785019494" = some ad)
    (hadstep : ad.step = some "agent_response")
    (hadcid : ad.conversation_id = some cid) (hcidne : cid ≠ "")
    (hadsender : ad.sender = some "+263785019494")
    (haccept : p = "accept_chat" ∨ strIn "accept" (pyLower p) = true) :
    (message_handler p "+263785019494" st rid).1.convs cid =
      some { conv with active := true } ∧
    (∃ d, (message_handler p "+263785019494" st rid).1.users conv.customer = some d ∧
      d.conversation_id = some cid) ∧
    (∃ d, (message_handler p "+263785019494" st rid).1.users "+263785019494" = some d ∧
      d.conversation_id = some cid) := by
  obtain ⟨h1, ⟨d1, hd1, hc1, -, -⟩, ⟨d2, hd2, hc2, -, -⟩⟩ :=
    agent_accept_effect p st rid cid conv hconv hagent hactive ad had hadstep hadcid
      hcidne hadsender haccept
  exact ⟨h1, ⟨d1, hd1, hc1⟩, ⟨d2, hd2, hc2⟩⟩

/-- C3 (witness): the accept path on the concrete `demoStore` handoff. -/
theorem C3_witness :
    (message_handler "accept_chat" "+263785019494" demoStore demoRid).1.convs demoRid =
      some { customer := demoCust, agent := "+263785019494", active := true } ∧
    (∃ d, (message_handler "accept_chat" "+263785019494" demoStore demoRid).1.users
        demoCust = some d ∧ d.conversation_id = some demoRid) ∧
    (∃ d, (message_handler "accept_chat" "+263785019494" demoStore demoRid).1.users
        "+263785019494" = some d ∧ d.conversation_id = some demoRid) :=
  C3_accept_path "accept_chat" demoStore demoRid demoRid
    { customer := demoCust, agent := "+263785019494", active := false }
    (by decide) rfl rfl
    { step := some "agent_response", sender := some "+263785019494",
      phone_number := some "+263785019494", conversation_id := some demoRid,
      awaiting_agent_response := some true }
    (by decide) rfl rfl (by decide) rfl (Or.inl rfl)

/-- C4 (amended): for every `Requested` handoff record, a reject decision
from the assigned agent (the `reject_chat` button id, or text containing
"reject" — and not "accept", which the code checks first) deletes the record
and routes the customer through the welcome handler: the welcome menu is
sent and the customer's stored step becomes `main_menu`, the step the
welcome handler stores (not the initial `welcome` step). -/
theorem C4_reject_path (p : String) (st : Store) (rid : String)
    (cid : String) (conv : ConvData)
    (hconv : st.convs cid = some conv)
    (hagent : conv.agent = "+263785019494")
    (hactive : conv.active = false)
    (ad : UserState)
    (had : st.users "+263785019494" = some ad)
    (hadstep : ad.step = some "agent_response")
    (hadcid : ad.conversation_id = some cid) (hcidne : cid ≠ "")
    (hadsender : ad.sender = some "+263785019494")
    (hnacc : ¬(p = "accept_chat" ∨ strIn "accept" (pyLower p) = true))
    (hrej : p = "reject_chat" ∨ strIn "reject" (pyLower p) = true) :
    (message_handler p "+263785019494" st rid).1.convs cid = none ∧
    (∃ d, (message_handler p "+263785019494" st rid).1.users conv.customer = some d ∧
      d.step = some "main_menu") ∧
    sendList conv.customer welcome_msg ∈ (message_handler p "+263785019494" st rid).2 :=
  agent_reject_effect p st rid cid conv hconv hagent hactive ad had hadstep hadcid
    hcidne hadsender hnacc hrej

/-- C4 (witness): the reject path on the concrete `demoStore` handoff. -/
theorem C4_witness :
    (message_handler "reject_chat" "+263785019494" demoStore demoRid).1.convs demoRid =
      none ∧
    (∃ d, (message_handler "reject_chat" "+263785019494" demoStore demoRid).1.users
      demoCust = some d ∧ d.step = some "main_menu") ∧
    sendList demoCust welcome_msg ∈
      (message_handler "reject_chat" "+263785019494" demoStore demoRid).2 :=
  C4_reject_path "reject_chat" demoStore demoRid demoRid
    { customer := demoCust, agent := "+263785019494", active := false }
    (by decide) rfl rfl
    { step := some "agent_response", sender := some "+263785019494",
      phone_number := some "+263785019494", conversation_id := some demoRid,
      awaiting_agent_response := some true }
    (by decide) rfl rfl (by decide) rfl (by decide) (Or.inl rfl)

/-- C5: sending "exit" (case-insensitively) during an active handoff — from
the customer (first conjunct) or from the assigned agent (second conjunct) —
deletes the conversation record and leaves the customer's stored session at
the `restart_confirmation` step, never a mid-form collection step. -/
theorem C5_exit_teardown :
    (∀ p cust st rid (cd : UserState) (cid : String) (conv : ConvData),
      normalize_phone_number cust ∉ AGENT_NUMBERS → cust ∉ AGENT_NUMBERS →
      st.users cust = some cd → cd.step = some "agent_response" →
      cd.active_chat = some true → cd.sender = some cust →
      cd.conversation_id = some cid → cid ≠ "" →
      st.convs cid = some conv → conv.active = true →
      pyLower p = "exit" →
      (message_handler p cust st rid).1.convs cid = none ∧
      ∃ d, (message_handler p cust st rid).1.users conv.customer = some d ∧
        d.step = some "restart_confirmation") ∧
    (∀ p st rid (ad : UserState) (cid : String) (conv : ConvData),
      st.users "+263785019494" = some ad → ad.step = some "agent_response" →
      ad.sender = some "+263785019494" →
      ad.conversation_id = some cid → cid ≠ "" →
      st.convs cid = some conv → conv.active = true →
      pyLower p = "exit" →
      (message_handler p "+263785019494" st rid).1.convs cid = none ∧
      ∃ d, (message_handler p "+263785019494" st rid).1.users conv.customer = some d ∧
        d.step = some "restart_confirmation") := by
  constructor
  · intro p cust st rid cd cid conv hna hni hcd hstep hac hsender hcid hcidne hconv
      hactive hexit
    rw [message_handler_active_chat p cust st rid cd hna hni hcd hstep hac hsender]
    have he := exit_teardown_effect p cust st cid conv hconv hactive cd hcid hcidne hexit
    exact finishHandler_restart cust conv.customer _ cid he.1 he.2.1 he.2.2
  · intro p st rid ad cid conv had hadstep hadsender hadcid hcidne hconv hactive hexit
    rw [message_handler_agent p st rid ad had hadstep, hadsender]
    simp only [Option.getD_some]
    have he := exit_teardown_effect p "+263785019494" st cid conv hconv hactive ad
      hadcid hcidne hexit
    exact finishHandler_restart "+263785019494" conv.customer _ cid he.1 he.2.1 he.2.2

/-- C5 (witness): the agent sending "Exit" on the concrete accepted
conversation `demoActive`. -/
theorem C5_witness :
    (message_handler "Exit" "+263785019494" demoActive demoRid).1.convs demoRid = none ∧
    ∃ d, (message_handler "Exit" "+263785019494" demoActive demoRid).1.users
      demoCust = some d ∧ d.step = some "restart_confirmation" :=
  C5_exit_teardown.2 "Exit" demoActive demoRid
    { step := some "agent_response", sender := some "+263785019494",
      phone_number := some "+263785019494", conversation_id := some demoRid,
      awaiting_agent_response := some true, active_chat := some true }
    demoRid { customer := demoCust, agent := "+263785019494", active := true }
    (by decide) rfl rfl rfl (by decide) (by decide) rfl (by decide)

/-- C2 (amended): no 90-second timeout fallback exists — the code has no
timer, so nothing is ever sent to a waiting customer except in reaction to
an inbound message (see `C2`'s counterexample for the exact sends at
request time).  What does hold: (1) entering the handoff stores the record
in `Requested` (`active=false`); (2) a customer message while `Requested`
only produces the wait reminder and leaves the record and the customer's
handoff session intact; (3) a later accept still succeeds, rewriting the
record with `active=true`. -/
theorem C2_requested_no_fallback :
    (∀ sender (ud : UserState) st rid,
      (human_agent "" sender ud st rid).store.convs rid =
        some { customer := sender, agent := "+263785019494", active := false }) ∧
    (∀ p cust st rid (cd : UserState) (cid : String) (conv : ConvData),
      normalize_phone_number cust ∉ AGENT_NUMBERS → cust ∉ AGENT_NUMBERS →
      st.users cust = some cd → cd.step = some "agent_response" →
      cd.active_chat.getD false = false →
      cd.conversation_id = some cid → cid ≠ "" →
      st.convs cid = some conv → conv.active = false → cust ≠ conv.agent →
      pyLower (pyStrip p) ∉ (["hi", "hello", "hie", "hey", "start"] : List String) →
      (message_handler p cust st rid).1.convs cid = some conv ∧
      (∃ d, (message_handler p cust st rid).1.users cust = some d ∧
        d.step = some "agent_response" ∧ d.conversation_id = some cid) ∧
      (message_handler p cust st rid).2 =
        [sendText conv.customer "Please wait for the agent to accept your request."]) ∧
    (∀ p st rid (cid : String) (conv : ConvData) (ad : UserState),
      st.convs cid = some conv → conv.agent = "+263785019494" → conv.active = false →
      st.users "+263785019494" = some ad → ad.step = some "agent_response" →
      ad.conversation_id = some cid → cid ≠ "" →
      ad.sender = some "+263785019494" →
      (p = "accept_chat" ∨ strIn "accept" (pyLower p) = true) →
      (message_handler p "+263785019494" st rid).1.convs cid =
        some { conv with active := true }) := by
  refine ⟨?_, ?_, ?_⟩
  · intro sender ud st rid
    unfold human_agent
    dsimp only
    rw [if_neg (by decide :
      ¬ normalize_phone_number "+263785019494" ≠ "+263785019494")]
    simp [update_convs, Store.setConv]
  · intro p cust st rid cd cid conv hna hni hcd hstep hac hcid hcidne hconv hactive
      hne hgreet
    exact requested_wait_frame p cust st rid cd cid conv hna hni hcd hstep hac hcid
      hcidne hconv hactive hne hgreet
  · intro p st rid cid conv ad hconv hagent hactive had hadstep hadcid hcidne
      hadsender haccept
    exact (agent_accept_effect p st rid cid conv hconv hagent hactive ad had hadstep
      hadcid hcidne hadsender haccept).1

/-- C2 (witness): on the concrete `demoStore` handoff, a non-greeting
customer message while `Requested` leaves the record untouched and only
re-sends the wait reminder. -/
theorem C2_witness :
    (message_handler "are you there?" demoCust demoStore demoRid).1.convs demoRid =
      some { customer := demoCust, agent := "+263785019494", active := false } ∧
    (∃ d, (message_handler "are you there?" demoCust demoStore demoRid).1.users
      demoCust = some d ∧ d.step = some "agent_response" ∧
      d.conversation_id = some demoRid) ∧
    (message_handler "are you there?" demoCust demoStore demoRid).2 =
      [sendText demoCust "Please wait for the agent to accept your request."] :=
  C2_requested_no_fallback.2.1 "are you there?" demoCust demoStore demoRid
    { step := some "agent_response", sender := some demoCust,
      phone_number := some demoCust, assigned_agent := some "+263785019494",
      agent_handover := some true, conversation_id := some demoRid,
      awaiting_agent_response := some true }
    demoRid { customer := demoCust, agent := "+263785019494", active := false }
    (by decide) (by decide) (by decide) rfl rfl rfl (by decide) (by decide) rfl
    (by decide) (by decide)

/-- C7: at every choice step, a reply the step's matcher cannot resolve
leaves every stored session and conversation document unchanged (the
re-merged return dict rewrites the sender's document with its existing
contents) and only re-prompts the sender: the step stays the same and no
other field moves. -/
theorem C7_nomatch_frame (s p sender w rid : String) (d : UserState) (st : Store)
    (hs : s ∈ choiceSteps)
    (hna : normalize_phone_number sender ∉ AGENT_NUMBERS) (hni : sender ∉ AGENT_NUMBERS)
    (hd : st.users sender = some d)
    (hstep : d.step = some s) (hphone : d.phone_number = some sender)
    (hsender : d.sender = some w)
    (hgreet : pyLower (pyStrip p) ∉ (["hi", "hello", "hie", "hey", "start"] : List String))
    (hmiss : stepMatcherMisses s p = true) :
    (∀ u, (message_handler p sender st rid).1.users u = st.users u) ∧
    (∀ c, (message_handler p sender st rid).1.convs c = st.convs c) ∧
    (∀ m ∈ (message_handler p sender st rid).2, m.recipient = sender) := by
  have hs2 : s = "main_menu" ∨ s = "about_menu" ∨ s = "services_menu" ∨
      s = "chatbot_menu" ∨ s = "quote_followup" ∨ s = "support_menu" ∨
      s = "contact_menu" := by
    simpa [choiceSteps] using hs
  rcases hs2 with rfl | rfl | rfl | rfl | rfl | rfl | rfl
  · -- main_menu
    rw [message_handler_dispatch p sender st rid d "main_menu" hna hni hd hstep
      (by decide) (by intro hx; exact absurd hx.1 (by decide)) hgreet]
    rw [show get_action "main_menu" p sender { d with sender := some sender } st rid =
        handle_main_menu p sender st from rfl]
    have hm : containMatch mainMenuList MainMenuOption.value p = none := by
      simpa [stepMatcherMisses, Option.isNone_iff_eq_none] using hmiss
    unfold handle_main_menu
    rw [hm]
    dsimp only [finishHandler]
    refine ⟨?_, fun c => rfl, ?_⟩
    · exact update_frame_eq st sender _ d hd
        (nomatch_merge_eq d "main_menu" w sender none hstep hphone hsender (Or.inl rfl))
    · intro m hm2
      rw [List.mem_singleton] at hm2
      subst hm2
      rfl
  · -- about_menu
    rw [message_handler_dispatch p sender st rid d "about_menu" hna hni hd hstep
      (by decide) (by intro hx; exact absurd hx.1 (by decide)) hgreet]
    rw [show get_action "about_menu" p sender { d with sender := some sender } st rid =
        handle_about_menu p sender st from rfl]
    have hm : containMatch aboutList AboutOption.value p = none := by
      simpa [stepMatcherMisses, Option.isNone_iff_eq_none] using hmiss
    unfold handle_about_menu
    rw [hm]
    dsimp only [finishHandler]
    refine ⟨?_, fun c => rfl, ?_⟩
    · exact update_frame_eq st sender _ d hd
        (nomatch_merge_eq d "about_menu" w sender none hstep hphone hsender (Or.inl rfl))
    · intro m hm2
      rw [List.mem_singleton] at hm2
      subst hm2
      rfl
  · -- services_menu
    rw [message_handler_dispatch p sender st rid d "services_menu" hna hni hd hstep
      (by decide) (by intro hx; exact absurd hx.1 (by decide)) hgreet]
    rw [show get_action "services_menu" p sender { d with sender := some sender } st rid =
        handle_services_menu p sender st from rfl]
    have hm : servicesMatch p = none := by
      simpa [stepMatcherMisses, Option.isNone_iff_eq_none] using hmiss
    unfold handle_services_menu
    rw [hm]
    dsimp only [finishHandler]
    refine ⟨?_, fun c => rfl, ?_⟩
    · exact update_frame_eq st sender _ d hd
        (nomatch_merge_eq d "services_menu" w sender none hstep hphone hsender (Or.inl rfl))
    · intro m hm2
      rw [List.mem_singleton] at hm2
      subst hm2
      rfl
  · -- chatbot_menu
    rw [message_handler_dispatch p sender st rid d "chatbot_menu" hna hni hd hstep
      (by decide) (by intro hx; exact absurd hx.1 (by decide)) hgreet]
    rw [show get_action "chatbot_menu" p sender { d with sender := some sender } st rid =
        handle_chatbot_menu p sender st from rfl]
    have hm : containMatch chatbotList ChatbotOption.value p = none := by
      simpa [stepMatcherMisses, Option.isNone_iff_eq_none] using hmiss
    unfold handle_chatbot_menu
    rw [hm]
    dsimp only [finishHandler]
    refine ⟨?_, fun c => rfl, ?_⟩
    · exact update_frame_eq st sender _ d hd
        (nomatch_merge_eq d "chatbot_menu" w sender none hstep hphone hsender (Or.inl rfl))
    · intro m hm2
      rw [List.mem_singleton] at hm2
      subst hm2
      rfl
  · -- quote_followup
    rw [message_handler_dispatch p sender st rid d "quote_followup" hna hni hd hstep
      (by decide) (by intro hx; exact absurd hx.1 (by decide)) hgreet]
    rw [show get_action "quote_followup" p sender { d with sender := some sender } st rid =
        handle_quote_followup p sender { d with sender := some sender } st rid from rfl]
    have hm : containMatch quoteList QuoteOption.value p = none := by
      simpa [stepMatcherMisses, Option.isNone_iff_eq_none] using hmiss
    unfold handle_quote_followup
    rw [hm]
    dsimp only [finishHandler]
    refine ⟨?_, fun c => rfl, ?_⟩
    · exact update_frame_eq st sender _ d hd
        (nomatch_merge_eq d "quote_followup" w sender d.user hstep hphone hsender
          (Or.inr rfl))
    · intro m hm2
      rw [List.mem_singleton] at hm2
      subst hm2
      rfl
  · -- support_menu
    rw [message_handler_dispatch p sender st rid d "support_menu" hna hni hd hstep
      (by decide) (by intro hx; exact absurd hx.1 (by decide)) hgreet]
    rw [show get_action "support_menu" p sender { d with sender := some sender } st rid =
        handle_support_menu p sender { d with sender := some sender } st from rfl]
    have hm : containMatch supportList SupportOption.value p = none := by
      simpa [stepMatcherMisses, Option.isNone_iff_eq_none] using hmiss
    unfold handle_support_menu
    rw [hm]
    dsimp only [finishHandler]
    refine ⟨?_, fun c => rfl, ?_⟩
    · exact update_frame_eq st sender _ d hd
        (nomatch_merge_eq d "support_menu" w sender none hstep hphone hsender (Or.inl rfl))
    · intro m hm2
      rw [List.mem_singleton] at hm2
      subst hm2
      rfl
  · -- contact_menu
    rw [message_handler_dispatch p sender st rid d "contact_menu" hna hni hd hstep
      (by decide) (by intro hx; exact absurd hx.1 (by decide)) hgreet]
    rw [show get_action "contact_menu" p sender { d with sender := some sender } st rid =
        handle_contact_menu p sender { d with sender := some sender } st rid from rfl]
    have hm : containMatch contactList ContactOption.value p = none := by
      simpa [stepMatcherMisses, Option.isNone_iff_eq_none] using hmiss
    unfold handle_contact_menu
    rw [hm]
    dsimp only [finishHandler]
    refine ⟨?_, fun c => rfl, ?_⟩
    · exact update_frame_eq st sender _ d hd
        (nomatch_merge_eq d "contact_menu" w sender none hstep hphone hsender (Or.inl rfl))
    · intro m hm2
      rw [List.mem_singleton] at hm2
      subst hm2
      rfl

/-- C7 (witness): an unmatched reply at the concrete `menuStore` main menu
changes nothing. -/
theorem C7_witness :
    (∀ u, (message_handler "zzz" menuCust menuStore "R7").1.users u =
      menuStore.users u) ∧
    (∀ c, (message_handler "zzz" menuCust menuStore "R7").1.convs c =
      menuStore.convs c) ∧
    (∀ m ∈ (message_handler "zzz" menuCust menuStore "R7").2, m.recipient = menuCust) :=
  C7_nomatch_frame "main_menu" "zzz" menuCust menuCust "R7"
    { step := some "main_menu", sender := some menuCust, phone_number := some menuCust }
    menuStore (by decide) (by decide) (by decide) (by decide) rfl rfl rfl
    (by decide) (by decide)

/-- C9 (amended): finishing the quote form and declining a callback sends
the confirmation and the welcome menu, and the stored step becomes
`main_menu`; the collected `user` form (complete) and the stale
`field = "description"` marker both remain in the stored session — the
merge-only `update_user_state` never discards them. -/
theorem C9_quote_completion (p cust w rid : String) (st : Store)
    (d : UserState) (u : UserRec)
    (hna : normalize_phone_number cust ∉ AGENT_NUMBERS) (hni : cust ∉ AGENT_NUMBERS)
    (hd : st.users cust = some d)
    (hstep : d.step = some "quote_followup") (_hphone : d.phone_number = some cust)
    (_hsender : d.sender = some w)
    (huser : d.user = some u) (hfield : d.field = some "description")
    (hgreet : pyLower (pyStrip p) ∉ (["hi", "hello", "hie", "hey", "start"] : List String))
    (hm : containMatch quoteList QuoteOption.value p = some QuoteOption.NO_CALLBACK) :
    (∃ d2, (message_handler p cust st rid).1.users cust = some d2 ∧
      d2.step = some "main_menu" ∧ d2.user = some u ∧ d2.field = some "description") ∧
    (message_handler p cust st rid).2 =
      [sendText cust "Thank you! Your request has been submitted. You'll receive the quote via WhatsApp/email within 24 hours.",
       sendList cust welcome_msg] := by
  rw [message_handler_dispatch p cust st rid d "quote_followup" hna hni hd hstep
    (by decide) (by intro hx; exact absurd hx.1 (by decide)) hgreet]
  rw [show get_action "quote_followup" p cust { d with sender := some cust } st rid =
      handle_quote_followup p cust { d with sender := some cust } st rid from rfl]
  unfold handle_quote_followup
  rw [hm]
  dsimp only
  rw [show ({ d with sender := some cust } : UserState).user = d.user from rfl, huser]
  dsimp only
  unfold handle_welcome
  dsimp only [finishHandler]
  constructor
  · obtain ⟨d1, hd1, h1s, h1u, h1f⟩ :=
      update_self_fields st cust { step := some "main_menu" }
    rw [get_user_state_eq hd] at h1s h1u h1f
    obtain ⟨d2, hd2, h2s, h2u, h2f⟩ :=
      update_self_fields (update_user_state st cust { step := some "main_menu" }) cust
        { step := some "main_menu" }
    rw [get_user_state_eq hd1] at h2s h2u h2f
    refine ⟨d2, hd2, ?_, ?_, ?_⟩
    · simpa using h2s
    · rw [h2u]
      simp only [Option.none_orElse]
      rw [h1u]
      simp only [Option.none_orElse]
      exact huser
    · rw [h2f]
      simp only [Option.none_orElse]
      rw [h1f]
      simp only [Option.none_orElse]
      exact hfield
  · rfl

/-- C9 (witness): the amended completion theorem on the concrete
`quoteStore` scenario. -/
theorem C9_witness :
    (∃ d2, (message_handler "No, just send the quote" quoteCust quoteStore "R6").1.users
      quoteCust = some d2 ∧ d2.step = some "main_menu" ∧
      d2.user = some
        { name := "John Doe", phone := quoteCust,
          email := some "john@example.com", service_type := some ServiceOption.WEBSITE,
          project_description := some "A simple site", callback_requested := false,
          support_type := none } ∧
      d2.field = some "description") ∧
    (message_handler "No, just send the quote" quoteCust quoteStore "R6").2 =
      [sendText quoteCust "Thank you! Your request has been submitted. You'll receive the quote via WhatsApp/email within 24 hours.",
       sendList quoteCust welcome_msg] :=
  C9_quote_completion "No, just send the quote" quoteCust quoteCust "R6" quoteStore
    { step := some "quote_followup", sender := some quoteCust,
      phone_number := some quoteCust,
      user := some
        { name := "John Doe", phone := quoteCust,
          email := some "john@example.com", service_type := some ServiceOption.WEBSITE,
          project_description := some "A simple site", callback_requested := false,
          support_type := none },
      field := some "description" }
    { name := "John Doe", phone := quoteCust, email := some "john@example.com",
      service_type := some ServiceOption.WEBSITE,
      project_description := some "A simple site", callback_requested := false,
      support_type := none }
    (by decide) (by decide) (by decide) rfl rfl rfl rfl rfl (by decide) (by decide)
